import Mathlib

/-!
Verification development for the ReportsApp offline-first data layer.

The definitions below are a shallow embedding of the repository's
TypeScript source:

* `DatabaseService` embeds `src/database/database.ts` (the class
  `DatabaseService` backed by SQLite).  The SQLite tables become lists kept
  in insertion order inside `DBState`; SQL `WHERE` clauses become `filter`,
  `ORDER BY` becomes an insertion sort on the relevant column, `UPDATE ...
  WHERE id = ?` becomes a `map` that rewrites the matching rows, and
  `DELETE ... WHERE id = ?` becomes a `filter`.  A method that does
  `if (!this.db) throw new Error("Database not initialized")` becomes a
  function into `Except DBError`.
* `SyncService` embeds `src/services/syncService.ts`.  The simulated
  random HTTP transport (`makeHttpRequest`) is replaced by an explicit
  oracle: a `List Bool` of per-call outcomes (`true` = transport success).
* `Auth` embeds the `login`/`register` functions of
  `src/contexts/AuthContext.tsx` (SecureStore token writes, which only
  store the returned data, are not part of the state).

ISO timestamp strings (`new Date().toISOString()`) are modelled as `Nat`
instants passed in explicitly as `now`; string comparison of such
timestamps agrees with numeric comparison.  The id generator
`Date.now().toString(36) + Math.random().toString(36).substr(2)` is
modelled by a counter `nextId` rendered through `genId`; where a proof
needs the generated id to be fresh this is an explicit hypothesis rather
than an assumption hidden in the model.
-/

namespace ReportsApp

/-- Role of a user, `'admin' | 'user'` in `src/types`. -/
inductive Role where
  | admin
  | user
deriving DecidableEq, Repr

/-- Status of a report submission, `'draft' | 'submitted' | 'approved' | 'rejected'`. -/
inductive SubmissionStatus where
  | draft
  | submitted
  | approved
  | rejected
deriving DecidableEq, Repr

/-- Sync status of a submission, `'synced' | 'pending' | 'error'`. -/
inductive SyncStatus where
  | synced
  | pending
  | error
deriving DecidableEq, Repr

/-- Status of a report definition, `'draft' | 'active' | 'archived'`. -/
inductive ReportStatus where
  | draft
  | active
  | archived
deriving DecidableEq, Repr

/-- Entity type of a sync-queue entry, `'submission' | 'report' | 'user' | 'project'`. -/
inductive EntityType where
  | submission
  | report
  | user
  | project
deriving DecidableEq, Repr

/-- Action of a sync-queue entry, `'create' | 'update' | 'delete'`. -/
inductive SyncAction where
  | create
  | update
  | delete
deriving DecidableEq, Repr

/-- Submission form data, `Record<string, any>` in the source: a mapping from
field id to the entered value.  Values are modelled as strings; nothing in
the embedded code inspects them. -/
abbrev Data := List (String × String)

/-- The JSON payload stored in a sync-queue entry's `data` column.  The source
builds exactly two payload shapes (at the enqueue sites in
`saveSubmissionOffline` and `updateSubmissionOffline`); `raw` covers a direct
call to `syncService.addToSyncQueue` with an arbitrary record. -/
inductive Payload where
  | submissionCreate (reportId userId : String) (data : Data)
      (status : SubmissionStatus) (submittedAt : Option Nat)
  | submissionUpdate (data : Data) (status : Option SubmissionStatus)
  | raw (data : Data)
deriving DecidableEq, Repr

/-- Row of the `users` table. -/
structure User where
  id : String
  email : String
  name : String
  role : Role
  createdAt : Nat
  updatedAt : Nat
deriving DecidableEq, Repr

/-- Row of the `projects` table.  `settings` is stored as an opaque JSON
string, exactly as the source does with `JSON.stringify(project.settings)`. -/
structure Project where
  id : String
  name : String
  description : String
  ownerId : String
  settings : String
  createdAt : Nat
  updatedAt : Nat
deriving DecidableEq, Repr

/-- Row of the `reports` table.  `fields` and `permissions` are stored as
opaque JSON strings, as in the source. -/
structure Report where
  id : String
  projectId : String
  title : String
  description : String
  fields : String
  permissions : String
  status : ReportStatus
  createdAt : Nat
  updatedAt : Nat
  createdBy : String
deriving DecidableEq, Repr

/-- Row of the `report_submissions` table. -/
structure ReportSubmission where
  id : String
  reportId : String
  userId : String
  data : Data
  status : SubmissionStatus
  submittedAt : Option Nat
  lastModified : Nat
  version : Nat
  isOffline : Bool
  syncStatus : SyncStatus
deriving DecidableEq, Repr

/-- Row of the `sync_queue` table. -/
structure SyncQueue where
  id : String
  type : EntityType
  action : SyncAction
  entityId : String
  data : Payload
  attempts : Nat
  lastAttempt : Option Nat
  error : Option String
  createdAt : Nat
deriving DecidableEq, Repr

/-- The persistent state owned by `DatabaseService`.  `web` is
`Platform.OS === 'web'`; `dbInit` is `this.db !== null` (on web the source
deliberately leaves `this.db = null`, the degraded/no-storage mode).
`nextId` drives the id generator. -/
structure DBState where
  web : Bool
  dbInit : Bool
  users : List User
  projects : List Project
  reports : List Report
  submissions : List ReportSubmission
  sync_queue : List SyncQueue
  nextId : Nat
deriving DecidableEq, Repr

/-- The one error the database layer throws: `"Database not initialized"`. -/
inductive DBError where
  | notInitialized
deriving DecidableEq, Repr

/-- Rendering of the id counter, standing in for
`Date.now().toString(36) + Math.random().toString(36).substr(2)`. -/
def genId (n : Nat) : String := "id" ++ toString n

/-- Ascending order on `created_at` used by `ORDER BY created_at ASC`. -/
def createdAtAsc (a b : SyncQueue) : Prop := a.createdAt ≤ b.createdAt

instance : DecidableRel createdAtAsc :=
  fun a b => inferInstanceAs (Decidable (a.createdAt ≤ b.createdAt))

instance : IsTotal SyncQueue createdAtAsc :=
  ⟨fun a b => Nat.le_total a.createdAt b.createdAt⟩

instance : IsTrans SyncQueue createdAtAsc :=
  ⟨fun _ _ _ => Nat.le_trans⟩

/-- Descending order on `created_at` for projects (`ORDER BY created_at DESC`). -/
def projCreatedAtDesc (a b : Project) : Prop := b.createdAt ≤ a.createdAt

instance : DecidableRel projCreatedAtDesc :=
  fun a b => inferInstanceAs (Decidable (b.createdAt ≤ a.createdAt))

/-- Descending order on `created_at` for reports. -/
def reportCreatedAtDesc (a b : Report) : Prop := b.createdAt ≤ a.createdAt

instance : DecidableRel reportCreatedAtDesc :=
  fun a b => inferInstanceAs (Decidable (b.createdAt ≤ a.createdAt))

/-- Descending order on `last_modified` for submissions. -/
def subLastModifiedDesc (a b : ReportSubmission) : Prop :=
  b.lastModified ≤ a.lastModified

instance : DecidableRel subLastModifiedDesc :=
  fun a b => inferInstanceAs (Decidable (b.lastModified ≤ a.lastModified))

namespace DatabaseService

/-- `isInitialized(): boolean` — `this.db !== null`. -/
def isInitialized (s : DBState) : Bool := s.dbInit

/-- `init()`: on web the source logs, sets `this.db = null` and returns (the
degraded mode); otherwise it opens the database and creates the schema
(`createTables` only creates missing tables and indexes, so it does not touch
the data). -/
def init (s : DBState) : DBState :=
  if s.web then { s with dbInit := false } else { s with dbInit := true }

/-- `ensureInitialized()`: initialize unless already initialized or on web. -/
def ensureInitialized (s : DBState) : DBState :=
  if !isInitialized s && !s.web then init s else s

/-- Argument of `createUser` — `Omit<User, "id">`.  The insert ignores the
caller-provided timestamps and stamps its own `now` (source lines 386-391). -/
structure NewUser where
  email : String
  name : String
  role : Role
  createdAt : Nat
  updatedAt : Nat
deriving DecidableEq, Repr

/-- `createUser(user)`: throws if the database handle is absent; otherwise
inserts a new row with a generated id and `created_at = updated_at = now`. -/
def createUser (s : DBState) (u : NewUser) (now : Nat) :
    Except DBError (String × DBState) :=
  if !s.dbInit then .error .notInitialized else
  let id := genId s.nextId
  .ok (id, { s with
    users := s.users ++ [{ id := id, email := u.email, name := u.name,
                           role := u.role, createdAt := now, updatedAt := now }],
    nextId := s.nextId + 1 })

/-- `getUserByEmail(email)`: throws if uninitialized; `getFirstAsync` returns
the first row whose email matches, or null. -/
def getUserByEmail (s : DBState) (email : String) :
    Except DBError (Option User) :=
  if !s.dbInit then .error .notInitialized else
  .ok (s.users.find? (fun u => u.email == email))

/-- `getUserById(id)`: throws if uninitialized; first row with the id, or null. -/
def getUserById (s : DBState) (id : String) : Except DBError (Option User) :=
  if !s.dbInit then .error .notInitialized else
  .ok (s.users.find? (fun u => u.id == id))

/-- Argument of `createProject` — `Omit<Project, "id">` (timestamps are again
replaced by the insert's own `now`, and `description || ""` defaults). -/
structure NewProject where
  name : String
  description : Option String
  ownerId : String
  settings : String
deriving DecidableEq, Repr

/-- `createProject(project)`: throws if uninitialized, else inserts. -/
def createProject (s : DBState) (p : NewProject) (now : Nat) :
    Except DBError (String × DBState) :=
  if !s.dbInit then .error .notInitialized else
  let id := genId s.nextId
  .ok (id, { s with
    projects := s.projects ++
      [{ id := id, name := p.name, description := p.description.getD "",
         ownerId := p.ownerId, settings := p.settings, createdAt := now,
         updatedAt := now }],
    nextId := s.nextId + 1 })

/-- `getProjectsByUserId(userId)`: `ensureInitialized`, then returns `[]` when
the handle is still absent, else rows with `owner_id = ?` ordered by
`created_at DESC`.  The possibly-advanced state is returned alongside. -/
def getProjectsByUserId (s : DBState) (userId : String) :
    List Project × DBState :=
  let s1 := ensureInitialized s
  if !s1.dbInit then ([], s1)
  else (List.insertionSort projCreatedAtDesc
          (s1.projects.filter (fun p => p.ownerId == userId)), s1)

/-- `getProjectById(id)`: `ensureInitialized`, then null when the handle is
absent, else the first row with the id. -/
def getProjectById (s : DBState) (id : String) : Option Project × DBState :=
  let s1 := ensureInitialized s
  if !s1.dbInit then (none, s1)
  else (s1.projects.find? (fun p => p.id == id), s1)

/-- Argument of `createReport` — `Omit<Report, "id">`. -/
structure NewReport where
  projectId : String
  title : String
  description : Option String
  fields : String
  permissions : String
  status : ReportStatus
  createdBy : String
deriving DecidableEq, Repr

/-- `createReport(report)`: throws if uninitialized, else inserts with its own
`now` timestamps. -/
def createReport (s : DBState) (r : NewReport) (now : Nat) :
    Except DBError (String × DBState) :=
  if !s.dbInit then .error .notInitialized else
  let id := genId s.nextId
  .ok (id, { s with
    reports := s.reports ++
      [{ id := id, projectId := r.projectId, title := r.title,
         description := r.description.getD "", fields := r.fields,
         permissions := r.permissions, status := r.status, createdAt := now,
         updatedAt := now, createdBy := r.createdBy }],
    nextId := s.nextId + 1 })

/-- `getReportsByProjectId(projectId)`: throws if uninitialized (this getter
has no `ensureInitialized` guard in the source), else matching rows ordered by
`created_at DESC`. -/
def getReportsByProjectId (s : DBState) (projectId : String) :
    Except DBError (List Report) :=
  if !s.dbInit then .error .notInitialized else
  .ok (List.insertionSort reportCreatedAtDesc
        (s.reports.filter (fun r => r.projectId == projectId)))

/-- `getAllReports()`: `ensureInitialized`, `[]` when the handle is absent,
else all rows ordered by `created_at DESC`. -/
def getAllReports (s : DBState) : List Report × DBState :=
  let s1 := ensureInitialized s
  if !s1.dbInit then ([], s1)
  else (List.insertionSort reportCreatedAtDesc s1.reports, s1)

/-- `getReportById(id)`: `ensureInitialized`, null when the handle is absent,
else the first row with the id. -/
def getReportById (s : DBState) (id : String) : Option Report × DBState :=
  let s1 := ensureInitialized s
  if !s1.dbInit then (none, s1)
  else (s1.reports.find? (fun r => r.id == id), s1)

/-- The fields `updateReport` reads from its `Partial<Report>` argument. -/
structure ReportPatch where
  title : Option String
  description : Option String
  fields : Option String
  permissions : Option String
  status : Option ReportStatus
deriving DecidableEq, Repr

/-- Effect on a matching row of the dynamic `UPDATE reports SET ...` built by
`updateReport`: supplied columns are overwritten and `updated_at = now` is
always appended. -/
def applyReportPatch (r : Report) (p : ReportPatch) (now : Nat) : Report :=
  { r with
    title := p.title.getD r.title
    description := p.description.getD r.description
    fields := p.fields.getD r.fields
    permissions := p.permissions.getD r.permissions
    status := p.status.getD r.status
    updatedAt := now }

/-- `updateReport(id, report)`: `ensureInitialized`, throws if the handle is
still absent, else runs `UPDATE reports SET ... WHERE id = ?` — every row with
the id is rewritten; an absent id simply updates zero rows. -/
def updateReport (s : DBState) (id : String) (p : ReportPatch) (now : Nat) :
    Except DBError DBState :=
  let s1 := ensureInitialized s
  if !s1.dbInit then .error .notInitialized else
  .ok { s1 with
    reports := s1.reports.map
      (fun r => if r.id == id then applyReportPatch r p now else r) }

/-- `deleteReport(id)`: `ensureInitialized`, throws if the handle is still
absent, else deletes the submissions of the report first and then the report
itself. -/
def deleteReport (s : DBState) (id : String) : Except DBError DBState :=
  let s1 := ensureInitialized s
  if !s1.dbInit then .error .notInitialized else
  .ok { s1 with
    submissions := s1.submissions.filter (fun sub => !(sub.reportId == id)),
    reports := s1.reports.filter (fun r => !(r.id == id)) }

/-- `getSubmissionsByReportId(reportId)`: throws if uninitialized (no
`ensureInitialized` in the source), else matching rows ordered by
`last_modified DESC`. -/
def getSubmissionsByReportId (s : DBState) (reportId : String) :
    Except DBError (List ReportSubmission) :=
  if !s.dbInit then .error .notInitialized else
  .ok (List.insertionSort subLastModifiedDesc
        (s.submissions.filter (fun sub => sub.reportId == reportId)))

/-- Argument of `createSubmission` — `Omit<ReportSubmission, "id">`.  The
insert stores `last_modified = now` regardless of the supplied
`lastModified` (source line 711). -/
structure NewSubmission where
  reportId : String
  userId : String
  data : Data
  status : SubmissionStatus
  submittedAt : Option Nat
  lastModified : Nat
  version : Nat
  isOffline : Bool
  syncStatus : SyncStatus
deriving DecidableEq, Repr

/-- `createSubmission(submission)`: throws if uninitialized, else inserts. -/
def createSubmission (s : DBState) (sub : NewSubmission) (now : Nat) :
    Except DBError (String × DBState) :=
  if !s.dbInit then .error .notInitialized else
  let id := genId s.nextId
  .ok (id, { s with
    submissions := s.submissions ++
      [{ id := id, reportId := sub.reportId, userId := sub.userId,
         data := sub.data, status := sub.status,
         submittedAt := sub.submittedAt, lastModified := now,
         version := sub.version, isOffline := sub.isOffline,
         syncStatus := sub.syncStatus }],
    nextId := s.nextId + 1 })

/-- The fields `updateSubmission` reads from its `Partial<ReportSubmission>`
argument (`data`, `status`, `submittedAt`, `syncStatus`; all other supplied
fields are ignored by the source). -/
structure SubmissionPatch where
  data : Option Data
  status : Option SubmissionStatus
  submittedAt : Option Nat
  syncStatus : Option SyncStatus
deriving DecidableEq, Repr

/-- Effect on a matching row of the dynamic `UPDATE report_submissions SET ...`
built by `updateSubmission`: supplied columns are overwritten and
`last_modified = now` is always appended. -/
def applySubmissionPatch (sub : ReportSubmission) (p : SubmissionPatch)
    (now : Nat) : ReportSubmission :=
  { sub with
    data := p.data.getD sub.data
    status := p.status.getD sub.status
    submittedAt := match p.submittedAt with
                   | some v => some v
                   | none => sub.submittedAt
    syncStatus := p.syncStatus.getD sub.syncStatus
    lastModified := now }

/-- `updateSubmission(id, data)`: throws if uninitialized, else runs
`UPDATE report_submissions SET ... WHERE id = ?` — every row with the id is
rewritten; an absent id updates zero rows and reports no error. -/
def updateSubmission (s : DBState) (id : String) (p : SubmissionPatch)
    (now : Nat) : Except DBError DBState :=
  if !s.dbInit then .error .notInitialized else
  .ok { s with
    submissions := s.submissions.map
      (fun sub => if sub.id == id then applySubmissionPatch sub p now else sub) }

/-- `getSubmissionsByUserId(userId)`: `ensureInitialized`, `[]` when the handle
is absent, else rows with `user_id = ?` ordered by `last_modified DESC`. -/
def getSubmissionsByUserId (s : DBState) (userId : String) :
    List ReportSubmission × DBState :=
  let s1 := ensureInitialized s
  if !s1.dbInit then ([], s1)
  else (List.insertionSort subLastModifiedDesc
          (s1.submissions.filter (fun sub => sub.userId == userId)), s1)

/-- `getPendingSyncItems()`: throws if uninitialized, else
`SELECT * FROM sync_queue WHERE attempts < 3 ORDER BY created_at ASC`. -/
def getPendingSyncItems (s : DBState) : Except DBError (List SyncQueue) :=
  if !s.dbInit then .error .notInitialized else
  .ok (List.insertionSort createdAtAsc
        (s.sync_queue.filter (fun e => e.attempts < 3)))

/-- Argument of `addToSyncQueue` — `Omit<SyncQueue, "id">`.  The insert stores
`created_at = now` regardless of the supplied `createdAt` (source line 822). -/
structure NewSyncItem where
  type : EntityType
  action : SyncAction
  entityId : String
  data : Payload
  attempts : Nat
  lastAttempt : Option Nat
  error : Option String
  createdAt : Nat
deriving DecidableEq, Repr

/-- `addToSyncQueue(item)`: throws if uninitialized, else inserts a new entry. -/
def addToSyncQueue (s : DBState) (item : NewSyncItem) (now : Nat) :
    Except DBError (String × DBState) :=
  if !s.dbInit then .error .notInitialized else
  let id := genId s.nextId
  .ok (id, { s with
    sync_queue := s.sync_queue ++
      [{ id := id, type := item.type, action := item.action,
         entityId := item.entityId, data := item.data,
         attempts := item.attempts, lastAttempt := item.lastAttempt,
         error := item.error, createdAt := now }],
    nextId := s.nextId + 1 })

/-- `updateSyncQueueItem(id, attempts, error?)`: throws if uninitialized, else
`UPDATE sync_queue SET attempts = ?, last_attempt = ?, error = ? WHERE id = ?`. -/
def updateSyncQueueItem (s : DBState) (id : String) (attempts : Nat)
    (err : Option String) (now : Nat) : Except DBError DBState :=
  if !s.dbInit then .error .notInitialized else
  .ok { s with
    sync_queue := s.sync_queue.map
      (fun e => if e.id == id then
          { e with attempts := attempts, lastAttempt := some now, error := err }
        else e) }

/-- `removeSyncQueueItem(id)`: throws if uninitialized, else
`DELETE FROM sync_queue WHERE id = ?`. -/
def removeSyncQueueItem (s : DBState) (id : String) : Except DBError DBState :=
  if !s.dbInit then .error .notInitialized else
  .ok { s with sync_queue := s.sync_queue.filter (fun e => !(e.id == id)) }

/-- Modelled from the spec: the Entity Store contract states that
`getById(type, id)` "returns entity or not found (no exception)".  The
repository's database service defines no submission-by-id getter under src
(the single call to `databaseService.getSubmissionById` in FillReportScreen is
commented out), so lookup of a submission by id is modelled from the spec's
words as a search of the submissions collection. -/
def getSubmissionById (s : DBState) (id : String) : Option ReportSubmission :=
  s.submissions.find? (fun sub => sub.id == id)

end DatabaseService

/-- The mutable state of the `SyncService` singleton: the database it writes
through, the connectivity flag maintained by the NetInfo listener, and the
reentrancy flag `syncInProgress`. -/
structure SyncState where
  db : DBState
  isOnline : Bool
  syncInProgress : Bool
deriving DecidableEq, Repr

namespace SyncService

/-- One iteration of the `for` loop of `processSyncQueue`: `syncItem` makes
exactly one transport call (`ok` is its outcome; `msg` the error message of a
failed call).  On success the entry is removed; if the removal itself throws,
or on transport failure, the `catch` records the failed attempt with
`updateSyncQueueItem(item.id, item.attempts + 1, message)`. -/
def processOneItem (s : DBState) (item : SyncQueue) (ok : Bool) (msg : String)
    (now : Nat) : Except DBError DBState :=
  if ok then
    match DatabaseService.removeSyncQueueItem s item.id with
    | .ok s1 => .ok s1
    | .error _ =>
        DatabaseService.updateSyncQueueItem s item.id (item.attempts + 1)
          (some msg) now
  else
    DatabaseService.updateSyncQueueItem s item.id (item.attempts + 1)
      (some msg) now

/-- The `for` loop of `processSyncQueue` over the fetched snapshot.  `outs`
supplies the transport outcome of each iteration in order (missing entries
default to success).  An error escaping the `catch` (only possible when the
database handle is absent) aborts the loop and propagates, as in the source. -/
def processSyncQueueLoop : DBState → List SyncQueue → List Bool → String →
    Nat → Except DBError DBState
  | s, [], _, _, _ => .ok s
  | s, item :: rest, outs, msg, now =>
    match processOneItem s item (outs.headD true) msg now with
    | .ok s1 => processSyncQueueLoop s1 rest outs.tail msg now
    | .error e => .error e

/-- `processSyncQueue()`: fetch `getPendingSyncItems()` and run the loop. -/
def processSyncQueue (s : DBState) (outs : List Bool) (msg : String)
    (now : Nat) : Except DBError DBState :=
  match DatabaseService.getPendingSyncItems s with
  | .error e => .error e
  | .ok pendingItems => processSyncQueueLoop s pendingItems outs msg now

/-- A `SubmissionPatch` that only sets `syncStatus`, as built at the two
`updateSubmission` call sites inside `syncPendingSubmissions`. -/
def onlySyncStatus (v : SyncStatus) : DatabaseService.SubmissionPatch :=
  { data := none, status := none, submittedAt := none, syncStatus := some v }

/-- One iteration of the `for` loop of `syncPendingSubmissions`:
`syncSubmission` makes one transport call with outcome `ok`; on success the
submission is marked `synced`, and if that write throws, or on transport
failure, the `catch` marks it `error`. -/
def syncOneSubmission (s : DBState) (sub : ReportSubmission) (ok : Bool)
    (now : Nat) : Except DBError DBState :=
  if ok then
    match DatabaseService.updateSubmission s sub.id
        (onlySyncStatus .synced) now with
    | .ok s1 => .ok s1
    | .error _ =>
        DatabaseService.updateSubmission s sub.id (onlySyncStatus .error) now
  else
    DatabaseService.updateSubmission s sub.id (onlySyncStatus .error) now

/-- The `for` loop of `syncPendingSubmissions` over the pending snapshot. -/
def syncPendingSubmissionsLoop : DBState → List ReportSubmission →
    List Bool → Nat → Except DBError DBState
  | s, [], _, _ => .ok s
  | s, sub :: rest, outs, now =>
    match syncOneSubmission s sub (outs.headD true) now with
    | .ok s1 => syncPendingSubmissionsLoop s1 rest outs.tail now
    | .error e => .error e

/-- `syncPendingSubmissions()`: the source fetches
`getSubmissionsByUserId('current_user_id')` — the literal placeholder string,
flagged by a TODO comment — filters the result to `syncStatus === 'pending'`,
and pushes each one. -/
def syncPendingSubmissions (s : DBState) (outs : List Bool) (now : Nat) :
    Except DBError DBState :=
  let fetched := DatabaseService.getSubmissionsByUserId s "current_user_id"
  let pendingSubmissions :=
    fetched.1.filter (fun sub => sub.syncStatus == SyncStatus.pending)
  syncPendingSubmissionsLoop fetched.2 pendingSubmissions outs now

/-- `startSync()`: a no-op when offline or when a pass is already running;
skips the pass when the database is uninitialized; otherwise drains the queue
and then re-scans pending submissions.  `syncInProgress` is set for the
duration and restored by `finally`, so its net effect is nil.  All errors are
swallowed by the surrounding `try`/`catch`; the `.error` fallbacks below are
unreachable once the `isInitialized` guard has passed (no operation of the
pass can un-initialize the handle), and are mapped to the state reached so
far.  `outs1`/`outs2` are the transport outcomes of the two phases, `msg` the
message of a failed transport call. -/
def startSync (st : SyncState) (outs1 outs2 : List Bool) (msg : String)
    (now : Nat) : SyncState :=
  if !st.isOnline || st.syncInProgress then st
  else if !(DatabaseService.isInitialized st.db) then st
  else
    match processSyncQueue st.db outs1 msg now with
    | .error _ => st
    | .ok db1 =>
      match syncPendingSubmissions db1 outs2 now with
      | .error _ => { st with db := db1 }
      | .ok db2 => { st with db := db2 }

/-- `addToSyncQueue(type, action, entityId, data)` of the service: inserts an
entry with `attempts: 0` and the current time.  When online and idle the
source additionally fires `this.startSync()` without awaiting it; that
asynchronous pass is modelled as a separate `startSync` step (see
`saveSubmissionOfflineAndSync`). -/
def addToSyncQueue (st : SyncState) (ty : EntityType) (action : SyncAction)
    (entityId : String) (payload : Payload) (now : Nat) :
    Except DBError SyncState :=
  match DatabaseService.addToSyncQueue st.db
      { type := ty, action := action, entityId := entityId, data := payload,
        attempts := 0, lastAttempt := none, error := none,
        createdAt := now } now with
  | .error e => .error e
  | .ok r => .ok { st with db := r.2 }

/-- `saveSubmissionOffline(reportId, userId, data, status)`: create the
submission locally with `version: 1`, `isOffline: true`,
`syncStatus: 'pending'` and `submittedAt` stamped only when submitted, then
enqueue a `create` entry for it.  Returns the new submission id.  (The source
restricts `status` to `'draft' | 'submitted'`.) -/
def saveSubmissionOffline (st : SyncState) (reportId userId : String)
    (data : Data) (status : SubmissionStatus) (now : Nat) :
    Except DBError (String × SyncState) :=
  match DatabaseService.createSubmission st.db
      { reportId := reportId, userId := userId, data := data, status := status,
        submittedAt := if status == SubmissionStatus.submitted
                       then some now else none,
        lastModified := now, version := 1, isOffline := true,
        syncStatus := SyncStatus.pending } now with
  | .error e => .error e
  | .ok r =>
    match addToSyncQueue { st with db := r.2 } EntityType.submission
        SyncAction.create r.1
        (Payload.submissionCreate reportId userId data status
          (if status == SubmissionStatus.submitted then some now else none))
        now with
    | .error e => .error e
    | .ok st1 => .ok (r.1, st1)

/-- The `updateData` record built by `updateSubmissionOffline`: the new data,
`syncStatus: 'pending'`, and — when a status is supplied — the status and, on
submit, a fresh `submittedAt`. -/
def localEditPatch (data : Data) (status : Option SubmissionStatus)
    (now : Nat) : DatabaseService.SubmissionPatch :=
  { data := some data,
    status := status,
    submittedAt := match status with
                   | some SubmissionStatus.submitted => some now
                   | _ => none,
    syncStatus := some SyncStatus.pending }

/-- `updateSubmissionOffline(submissionId, data, status?)`: update the
submission locally with the new data, `syncStatus: 'pending'`, and — when a
status is supplied — the status and, if it is `'submitted'`, a fresh
`submittedAt`; then enqueue an `update` entry. -/
def updateSubmissionOffline (st : SyncState) (submissionId : String)
    (data : Data) (status : Option SubmissionStatus) (now : Nat) :
    Except DBError SyncState :=
  let patch : DatabaseService.SubmissionPatch :=
    { data := some data,
      status := status,
      submittedAt := match status with
                     | some SubmissionStatus.submitted => some now
                     | _ => none,
      syncStatus := some SyncStatus.pending }
  match DatabaseService.updateSubmission st.db submissionId patch now with
  | .error e => .error e
  | .ok db1 =>
    addToSyncQueue { st with db := db1 } EntityType.submission
      SyncAction.update submissionId (Payload.submissionUpdate data status) now

/-- `clearFailedSyncItems()`: fetch `getPendingSyncItems()`, keep the items
with `attempts >= 3`, and remove each of them from the queue. -/
def clearFailedSyncItems (s : DBState) : Except DBError DBState :=
  match DatabaseService.getPendingSyncItems s with
  | .error e => .error e
  | .ok pendingItems =>
    let failedItems := pendingItems.filter (fun item => 3 ≤ item.attempts)
    removeAll s failedItems
where
  /-- The `for` loop removing each failed item. -/
  removeAll : DBState → List SyncQueue → Except DBError DBState
    | s, [] => .ok s
    | s, item :: rest =>
      match DatabaseService.removeSyncQueueItem s item.id with
      | .ok s1 => removeAll s1 rest
      | .error e => .error e

/-- The combination that C2 is about: a `saveSubmissionOffline` call followed
by the sync pass its enqueue step fires when online (`startSync` itself
re-checks `isOnline`/`syncInProgress`, so applying it unconditionally has the
same effect).  In the source that pass is not awaited; any transport failure
inside it is swallowed by `startSync` and can never reach this caller. -/
def saveSubmissionOfflineAndSync (st : SyncState) (reportId userId : String)
    (data : Data) (status : SubmissionStatus) (outs1 outs2 : List Bool)
    (msg : String) (now : Nat) : Except DBError (String × SyncState) :=
  match saveSubmissionOffline st reportId userId data status now with
  | .error e => .error e
  | .ok r => .ok (r.1, startSync r.2 outs1 outs2 msg now)

/-- The analogous combination for `updateSubmissionOffline` (the `submit`
path: screens submit by updating with status `'submitted'`). -/
def updateSubmissionOfflineAndSync (st : SyncState) (submissionId : String)
    (data : Data) (status : Option SubmissionStatus) (outs1 outs2 : List Bool)
    (msg : String) (now : Nat) : Except DBError SyncState :=
  match updateSubmissionOffline st submissionId data status now with
  | .error e => .error e
  | .ok st1 => .ok (startSync st1 outs1 outs2 msg now)

end SyncService

/-- Credentials passed to `login`. -/
structure LoginCredentials where
  email : String
  password : String
deriving DecidableEq, Repr

/-- Data passed to `register`. -/
structure RegisterData where
  email : String
  password : String
  name : String
deriving DecidableEq, Repr

/-- Errors surfaced by the auth functions: database errors are rethrown, and
the two explicit `throw new Error(...)` sites get their own constructors. -/
inductive AuthError where
  | db (e : DBError)
  | userCreationFailed
  | userAlreadyExists
deriving DecidableEq, Repr

namespace Auth

/-- The local part of an email, `email.split('@')[0]` in the source (an email
without `'@'` yields the whole string, as in JavaScript). -/
def localPart (email : String) : String := (email.splitOn "@").headD ""

/-- `login(credentials)` from AuthContext: look the email up locally; if no
user exists, create one with the email's local part as name and role
`'admin'`, then load it back.  The password is never validated — a token is
minted for whatever user was found or created.  SecureStore writes only
persist the returned data and are not part of this state. -/
def login (s : DBState) (c : LoginCredentials) (now : Nat) :
    Except AuthError (User × DBState) :=
  match DatabaseService.getUserByEmail s c.email with
  | .error e => .error (.db e)
  | .ok (some u) => .ok (u, s)
  | .ok none =>
    match DatabaseService.createUser s
        { email := c.email, name := localPart c.email, role := Role.admin,
          createdAt := now, updatedAt := now } now with
    | .error e => .error (.db e)
    | .ok r =>
      match DatabaseService.getUserById r.2 r.1 with
      | .error e => .error (.db e)
      | .ok none => .error .userCreationFailed
      | .ok (some u) => .ok (u, r.2)

/-- `register(data)` from AuthContext: reject an email that already has a
user, otherwise create a user with role `'user'` and log them in. -/
def register (s : DBState) (d : RegisterData) (now : Nat) :
    Except AuthError (User × DBState) :=
  match DatabaseService.getUserByEmail s d.email with
  | .error e => .error (.db e)
  | .ok (some _) => .error .userAlreadyExists
  | .ok none =>
    match DatabaseService.createUser s
        { email := d.email, name := d.name, role := Role.user,
          createdAt := now, updatedAt := now } now with
    | .error e => .error (.db e)
    | .ok r =>
      match DatabaseService.getUserById r.2 r.1 with
      | .error e => .error (.db e)
      | .ok none => .error .userCreationFailed
      | .ok (some u) => .ok (u, r.2)

end Auth

/-- The state-mutating operations of the system, as reachable from the
screens and the engine: the screens mutate submissions exclusively through
`syncService.saveSubmissionOffline` / `syncService.updateSubmissionOffline`;
sync passes run through `startSync` (also behind `forcSync` and the NetInfo
listener); report/project management goes through the database service; and
the auth context creates users.  Read-only queries do not change state and
are omitted. -/
inductive Op where
  | saveOffline (reportId userId : String) (data : Data)
      (status : SubmissionStatus) (now : Nat)
  | updateOffline (submissionId : String) (data : Data)
      (status : Option SubmissionStatus) (now : Nat)
  | sync (outs1 outs2 : List Bool) (msg : String) (now : Nat)
  | enqueue (ty : EntityType) (action : SyncAction) (entityId : String)
      (payload : Payload) (now : Nat)
  | clearFailed
  | deleteReport (id : String)
  | editReport (id : String) (p : DatabaseService.ReportPatch) (now : Nat)
  | newReport (r : DatabaseService.NewReport) (now : Nat)
  | newProject (p : DatabaseService.NewProject) (now : Nat)
  | loginOp (c : LoginCredentials) (now : Nat)
  | registerOp (d : RegisterData) (now : Nat)

/-- The operations that are local edits of a submission (the `saveDraft` /
`submit` paths of the Submission Lifecycle). -/
def Op.isLocalEdit : Op → Bool
  | .saveOffline .. => true
  | .updateOffline .. => true
  | _ => false

/-- Effect of an operation on the system state.  An operation that throws
leaves the state as it was: every `.error` of the embedded functions occurs
before any mutation (the database layer throws up front when the handle is
absent). -/
def applyOp (op : Op) (st : SyncState) : SyncState :=
  match op with
  | .saveOffline reportId userId data status now =>
    match SyncService.saveSubmissionOffline st reportId userId data status
        now with
    | .ok r => r.2
    | .error _ => st
  | .updateOffline submissionId data status now =>
    match SyncService.updateSubmissionOffline st submissionId data status
        now with
    | .ok st1 => st1
    | .error _ => st
  | .sync outs1 outs2 msg now => SyncService.startSync st outs1 outs2 msg now
  | .enqueue ty action entityId payload now =>
    match SyncService.addToSyncQueue st ty action entityId payload now with
    | .ok st1 => st1
    | .error _ => st
  | .clearFailed =>
    match SyncService.clearFailedSyncItems st.db with
    | .ok db1 => { st with db := db1 }
    | .error _ => st
  | .deleteReport id =>
    match DatabaseService.deleteReport st.db id with
    | .ok db1 => { st with db := db1 }
    | .error _ => st
  | .editReport id p now =>
    match DatabaseService.updateReport st.db id p now with
    | .ok db1 => { st with db := db1 }
    | .error _ => st
  | .newReport r now =>
    match DatabaseService.createReport st.db r now with
    | .ok r1 => { st with db := r1.2 }
    | .error _ => st
  | .newProject p now =>
    match DatabaseService.createProject st.db p now with
    | .ok r1 => { st with db := r1.2 }
    | .error _ => st
  | .loginOp c now =>
    match Auth.login st.db c now with
    | .ok r => { st with db := r.2 }
    | .error _ => st
  | .registerOp d now =>
    match Auth.register st.db d now with
    | .ok r => { st with db := r.2 }
    | .error _ => st

/-! Concrete fixtures used by individual claims below. -/

/-- A sync-queue entry whose attempts have reached the cap of 3. -/
def exhaustedEntry : SyncQueue :=
  { id := "q1", type := EntityType.submission, action := SyncAction.create,
    entityId := "s1", data := Payload.raw [], attempts := 3,
    lastAttempt := some 40, error := some "Network error", createdAt := 10 }

/-- An initialized database whose queue holds only `exhaustedEntry`. -/
def stateWithExhausted : DBState :=
  { web := false, dbInit := true, users := [], projects := [], reports := [],
    submissions := [], sync_queue := [exhaustedEntry], nextId := 5 }

/-- A pending offline submission belonging to user `u1`. -/
def pendingSubOfU1 : ReportSubmission :=
  { id := "s1", reportId := "r1", userId := "u1",
    data := [("f1", "hello")], status := SubmissionStatus.draft,
    submittedAt := none, lastModified := 20, version := 1, isOffline := true,
    syncStatus := SyncStatus.pending }

/-- An initialized database whose session user `u1` owns one pending
submission. -/
def stateWithPendingOfU1 : DBState :=
  { web := false, dbInit := true,
    users := [{ id := "u1", email := "ana@example.com", name := "ana",
                role := Role.admin, createdAt := 1, updatedAt := 1 }],
    projects := [], reports := [], submissions := [pendingSubOfU1],
    sync_queue := [], nextId := 9 }

/-- The degraded store: web platform, database handle absent, nothing stored. -/
def degradedState : DBState :=
  { web := true, dbInit := false, users := [], projects := [], reports := [],
    submissions := [], sync_queue := [], nextId := 0 }

/-- An initialized store holding no entities at all. -/
def emptyInitState : DBState :=
  { web := false, dbInit := true, users := [], projects := [], reports := [],
    submissions := [], sync_queue := [], nextId := 0 }

/-- An active queue entry created early. -/
def queueEntryOld : SyncQueue :=
  { id := "qa", type := EntityType.submission, action := SyncAction.create,
    entityId := "sa", data := Payload.raw [], attempts := 0,
    lastAttempt := none, error := none, createdAt := 5 }

/-- An active queue entry created later, with one failed attempt. -/
def queueEntryNew : SyncQueue :=
  { id := "qb", type := EntityType.report, action := SyncAction.update,
    entityId := "rb", data := Payload.raw [], attempts := 1,
    lastAttempt := some 12, error := some "Network error", createdAt := 9 }

/-- An exhausted queue entry (3 attempts), the oldest of all. -/
def queueEntryDead : SyncQueue :=
  { id := "qc", type := EntityType.submission, action := SyncAction.delete,
    entityId := "sc", data := Payload.raw [], attempts := 3,
    lastAttempt := some 30, error := some "Network error", createdAt := 1 }

/-- An initialized store whose queue holds the three entries above in
insertion (non-creation) order. -/
def stateWithQueueMix : DBState :=
  { web := false, dbInit := true, users := [], projects := [], reports := [],
    submissions := [],
    sync_queue := [queueEntryNew, queueEntryDead, queueEntryOld],
    nextId := 3 }

/-- A submission already mirrored remotely (syncStatus synced). -/
def syncedSub : ReportSubmission :=
  { id := "s1", reportId := "r1", userId := "u1", data := [("f1", "old")],
    status := SubmissionStatus.draft, submittedAt := none, lastModified := 20,
    version := 1, isOffline := false, syncStatus := SyncStatus.synced }

/-- A system state holding only `syncedSub`. -/
def stateWithSynced : SyncState :=
  { db := { web := false, dbInit := true, users := [], projects := [],
            reports := [], submissions := [syncedSub], sync_queue := [],
            nextId := 4 },
    isOnline := false, syncInProgress := false }

/-- The image of `syncedSub` under a local edit of its data. -/
def editedSub : ReportSubmission :=
  { syncedSub with
      data := [("f1", "new")],
      syncStatus := SyncStatus.pending,
      lastModified := 60 }

/-! Shared helper lemmas. -/

/-- Mapping a function that fixes every element of a list is the identity. -/
theorem map_fixes_eq_self {α : Type} (f : α → α) :
    ∀ (l : List α), (∀ a ∈ l, f a = a) → l.map f = l
  | [], _ => rfl
  | a :: l, h => by
    have ha := h a (List.mem_cons_self a l)
    have hl := map_fixes_eq_self f l (fun b hb => h b (List.mem_cons_of_mem a hb))
    simp [ha, hl]

/-- Searching an appended list skips a prefix on which the predicate fails. -/
theorem find?_append_of_notfound {α : Type} (p : α → Bool) (l1 l2 : List α)
    (h : ∀ a ∈ l1, p a = false) : (l1 ++ l2).find? p = l2.find? p := by
  rw [List.find?_append]
  have : l1.find? p = none := List.find?_eq_none.mpr (by
    intro a ha hpa
    exact absurd hpa (by simp [h a ha]))
  simp [this]

/-- Two members of a list whose mapped ids are duplicate-free and whose ids
agree are the same element. -/
theorem eq_of_mem_of_nodup_ids (l : List ReportSubmission)
    (hn : (l.map (fun sub => sub.id)).Nodup) {a b : ReportSubmission}
    (ha : a ∈ l) (hb : b ∈ l) (hid : a.id = b.id) : a = b :=
  List.inj_on_of_nodup_map hn ha hb hid

/-- Full effect of `saveSubmissionOffline` on an initialized store: the call
succeeds, returning the generated submission id, after appending the pending
submission row and its `create` queue entry. -/
theorem saveSubmissionOffline_spec (st : SyncState) (reportId userId : String)
    (data : Data) (status : SubmissionStatus) (now : Nat)
    (hdb : st.db.dbInit = true) :
    SyncService.saveSubmissionOffline st reportId userId data status now
      = .ok (genId st.db.nextId,
          { st with db :=
              { st.db with
                  submissions := st.db.submissions ++
                    [({ id := genId st.db.nextId,
                        reportId := reportId,
                        userId := userId,
                        data := data,
                        status := status,
                        submittedAt :=
                          if status == SubmissionStatus.submitted
                          then some now else none,
                        lastModified := now,
                        version := 1,
                        isOffline := true,
                        syncStatus := SyncStatus.pending } : ReportSubmission)],
                  sync_queue := st.db.sync_queue ++
                    [({ id := genId (st.db.nextId + 1),
                        type := EntityType.submission,
                        action := SyncAction.create,
                        entityId := genId st.db.nextId,
                        data := Payload.submissionCreate reportId userId data
                          status (if status == SubmissionStatus.submitted
                                  then some now else none),
                        attempts := 0,
                        lastAttempt := none,
                        error := none,
                        createdAt := now } : SyncQueue)],
                  nextId := st.db.nextId + 1 + 1 } }) := by
  simp only [SyncService.saveSubmissionOffline,
    DatabaseService.createSubmission, SyncService.addToSyncQueue,
    DatabaseService.addToSyncQueue, hdb, Bool.not_true, Bool.false_eq_true,
    if_false, ite_false]

/-- Full effect of `updateSubmissionOffline` on an initialized store: the
rows carrying the submission id are patched to the new data with
`syncStatus := pending` (and, when supplied, the new status and a fresh
`submittedAt` on submit), and an `update` queue entry is appended. -/
theorem updateSubmissionOffline_spec (st : SyncState) (submissionId : String)
    (data : Data) (status : Option SubmissionStatus) (now : Nat)
    (hdb : st.db.dbInit = true) :
    SyncService.updateSubmissionOffline st submissionId data status now
      = .ok { st with db :=
          { st.db with
              submissions := st.db.submissions.map (fun sub =>
                if sub.id == submissionId then
                  DatabaseService.applySubmissionPatch sub
                    (SyncService.localEditPatch data status now) now
                else sub),
              sync_queue := st.db.sync_queue ++
                [({ id := genId st.db.nextId,
                    type := EntityType.submission,
                    action := SyncAction.update,
                    entityId := submissionId,
                    data := Payload.submissionUpdate data status,
                    attempts := 0,
                    lastAttempt := none,
                    error := none,
                    createdAt := now } : SyncQueue)],
              nextId := st.db.nextId + 1 } } := by
  simp only [SyncService.updateSubmissionOffline,
    SyncService.localEditPatch, DatabaseService.updateSubmission,
    SyncService.addToSyncQueue, DatabaseService.addToSyncQueue, hdb,
    Bool.not_true, Bool.false_eq_true, if_false, ite_false]

/-! C1 — `clearExhausted` / `clearFailedSyncItems`. -/

/-- C1: the claim says `clearFailedSyncItems` deletes every queue entry with
attempts >= 3.  The code instead selects its deletion candidates from
`getPendingSyncItems()`, which already filters to attempts < 3, so the
candidate set is always empty: on a queue holding a single entry with
attempts = 3 the call completes without removing anything and the entry
remains in `sync_queue`. -/
theorem clearFailedSyncItems_removes_nothing :
    SyncService.clearFailedSyncItems stateWithExhausted = .ok stateWithExhausted
    ∧ exhaustedEntry ∈ stateWithExhausted.sync_queue
    ∧ 3 ≤ exhaustedEntry.attempts := by
  refine ⟨by rfl, by decide, by decide⟩

/-! C3 — `syncPendingSubmissions` and the current session's user. -/

/-- C3: the claim says every pending submission of the current session's user
is pushed and marked synced/error in a drain pass.  The code queries
`getSubmissionsByUserId('current_user_id')` — the literal placeholder string
left behind a TODO — so user `u1`'s pending submission is never fetched: even
with a transport that would succeed, the pass changes nothing and the
submission stays `pending`. -/
theorem syncPendingSubmissions_skips_real_user :
    SyncService.syncPendingSubmissions stateWithPendingOfU1 [true, true] 50
        = .ok stateWithPendingOfU1
    ∧ pendingSubOfU1 ∈ stateWithPendingOfU1.submissions
    ∧ pendingSubOfU1.syncStatus = SyncStatus.pending
    ∧ (∃ u ∈ stateWithPendingOfU1.users, u.id = pendingSubOfU1.userId) := by
  refine ⟨by rfl, by decide, by decide, by decide⟩

/-! C4 — degraded (no persistent storage) mode. -/

/-- C4 fails as stated: in degraded mode not every store operation is a no-op
returning an empty result — reading the sync queue raises the
"Database not initialized" error. -/
theorem degraded_mode_queue_read_raises :
    DatabaseService.getPendingSyncItems degradedState
      = .error DBError.notInitialized := by rfl

/-- C4 (amended): in degraded mode the five `ensureInitialized`-guarded reads
(`getProjectsByUserId`, `getProjectById`, `getAllReports`, `getReportById`,
`getSubmissionsByUserId`) are no-ops returning empty or absent results and
leaving the state untouched, while every other store operation — user lookup
and creation, project/report/submission creation and update, report deletion,
`getReportsByProjectId`, `getSubmissionsByReportId`, and all sync-queue
operations — raises the "Database not initialized" error instead. -/
theorem degraded_mode_store_ops (s : DBState) (hweb : s.web = true)
    (hdb : s.dbInit = false) (userId pid rid email uid subId qid : String)
    (nu : DatabaseService.NewUser) (np : DatabaseService.NewProject)
    (nr : DatabaseService.NewReport) (ns : DatabaseService.NewSubmission)
    (sp : DatabaseService.SubmissionPatch) (rp : DatabaseService.ReportPatch)
    (nq : DatabaseService.NewSyncItem) (attempts now : Nat)
    (err : Option String) :
    DatabaseService.getProjectsByUserId s userId = ([], s)
    ∧ DatabaseService.getProjectById s pid = (none, s)
    ∧ DatabaseService.getAllReports s = ([], s)
    ∧ DatabaseService.getReportById s rid = (none, s)
    ∧ DatabaseService.getSubmissionsByUserId s userId = ([], s)
    ∧ DatabaseService.getUserByEmail s email = .error DBError.notInitialized
    ∧ DatabaseService.getUserById s uid = .error DBError.notInitialized
    ∧ DatabaseService.createUser s nu now = .error DBError.notInitialized
    ∧ DatabaseService.createProject s np now = .error DBError.notInitialized
    ∧ DatabaseService.createReport s nr now = .error DBError.notInitialized
    ∧ DatabaseService.getReportsByProjectId s pid
        = .error DBError.notInitialized
    ∧ DatabaseService.getSubmissionsByReportId s rid
        = .error DBError.notInitialized
    ∧ DatabaseService.createSubmission s ns now
        = .error DBError.notInitialized
    ∧ DatabaseService.updateSubmission s subId sp now
        = .error DBError.notInitialized
    ∧ DatabaseService.updateReport s rid rp now
        = .error DBError.notInitialized
    ∧ DatabaseService.deleteReport s rid = .error DBError.notInitialized
    ∧ DatabaseService.getPendingSyncItems s = .error DBError.notInitialized
    ∧ DatabaseService.addToSyncQueue s nq now = .error DBError.notInitialized
    ∧ DatabaseService.updateSyncQueueItem s qid attempts err now
        = .error DBError.notInitialized
    ∧ DatabaseService.removeSyncQueueItem s qid
        = .error DBError.notInitialized := by
  have hens : DatabaseService.ensureInitialized s = s := by
    simp [DatabaseService.ensureInitialized, DatabaseService.isInitialized,
      hweb, hdb]
  refine ⟨?_, ?_, ?_, ?_, ?_, ?_, ?_, ?_, ?_, ?_, ?_, ?_, ?_, ?_, ?_, ?_,
    ?_, ?_, ?_, ?_⟩ <;>
    simp [DatabaseService.getProjectsByUserId, DatabaseService.getProjectById,
      DatabaseService.getAllReports, DatabaseService.getReportById,
      DatabaseService.getSubmissionsByUserId, DatabaseService.getUserByEmail,
      DatabaseService.getUserById, DatabaseService.createUser,
      DatabaseService.createProject, DatabaseService.createReport,
      DatabaseService.getReportsByProjectId,
      DatabaseService.getSubmissionsByReportId,
      DatabaseService.createSubmission, DatabaseService.updateSubmission,
      DatabaseService.updateReport, DatabaseService.deleteReport,
      DatabaseService.getPendingSyncItems, DatabaseService.addToSyncQueue,
      DatabaseService.updateSyncQueueItem,
      DatabaseService.removeSyncQueueItem, hens, hdb]

/-- Witness for C4's amended theorem at the concrete degraded store. -/
theorem degraded_mode_store_ops_witness :
    degradedState.web = true ∧ degradedState.dbInit = false
    ∧ DatabaseService.getAllReports degradedState = ([], degradedState)
    ∧ DatabaseService.getPendingSyncItems degradedState
        = .error DBError.notInitialized := by
  have h := degraded_mode_store_ops degradedState rfl rfl "u" "p" "r" "e" "i"
    "s" "q" ⟨"e", "n", Role.user, 0, 0⟩ ⟨"n", none, "o", "st"⟩
    ⟨"p", "t", none, "f", "pm", ReportStatus.draft, "c"⟩
    ⟨"r", "u", [], SubmissionStatus.draft, none, 0, 1, true,
      SyncStatus.pending⟩
    ⟨none, none, none, none⟩ ⟨none, none, none, none, none⟩
    ⟨EntityType.submission, SyncAction.create, "e", Payload.raw [], 0, none,
      none, 0⟩ 0 0 none
  obtain ⟨h1, h2, h3, h4, h5, h6, h7, h8, h9, h10, h11, h12, h13, h14, h15,
    h16, h17, h18, h19, h20⟩ := h
  exact ⟨rfl, rfl, h3, h17⟩

/-! C5 — partial update semantics. -/

/-- C5 fails as stated: updating an id absent from the store does not fail
with NotFound — the generated `UPDATE ... WHERE id = ?` touches zero rows and
the call reports success with the state unchanged. -/
theorem updateSubmission_missing_id_no_error :
    DatabaseService.updateSubmission emptyInitState "missing"
      { data := none, status := none, submittedAt := none,
        syncStatus := some SyncStatus.synced } 7
    = .ok emptyInitState := by rfl

/-- C5 (amended): `update` on an id absent from the store succeeds silently
as a no-op (there is no NotFound); on a present id it merges exactly the
supplied fields, leaves every unsupplied field untouched, and always
refreshes `lastModified` (submissions) / `updatedAt` (reports). -/
theorem update_merges_and_refreshes (s : DBState) (hdb : s.dbInit = true)
    (id : String) (p : DatabaseService.SubmissionPatch)
    (rp : DatabaseService.ReportPatch) (now : Nat) :
    ((∀ sub ∈ s.submissions, sub.id ≠ id) →
        DatabaseService.updateSubmission s id p now = .ok s)
    ∧ (∃ s', DatabaseService.updateSubmission s id p now = .ok s'
        ∧ s'.submissions.length = s.submissions.length
        ∧ ∀ (k : Nat) (hk : k < s.submissions.length)
            (hk' : k < s'.submissions.length),
            ((s.submissions[k]).id ≠ id → s'.submissions[k] = s.submissions[k])
            ∧ ((s.submissions[k]).id = id →
                (s'.submissions[k]).id = (s.submissions[k]).id
                ∧ (s'.submissions[k]).reportId = (s.submissions[k]).reportId
                ∧ (s'.submissions[k]).userId = (s.submissions[k]).userId
                ∧ (s'.submissions[k]).version = (s.submissions[k]).version
                ∧ (s'.submissions[k]).isOffline = (s.submissions[k]).isOffline
                ∧ (s'.submissions[k]).data = p.data.getD (s.submissions[k]).data
                ∧ (s'.submissions[k]).status
                    = p.status.getD (s.submissions[k]).status
                ∧ (s'.submissions[k]).submittedAt
                    = (match p.submittedAt with
                       | some v => some v
                       | none => (s.submissions[k]).submittedAt)
                ∧ (s'.submissions[k]).syncStatus
                    = p.syncStatus.getD (s.submissions[k]).syncStatus
                ∧ (s'.submissions[k]).lastModified = now))
    ∧ ((∀ r ∈ s.reports, r.id ≠ id) →
        DatabaseService.updateReport s id rp now = .ok s)
    ∧ (∃ s', DatabaseService.updateReport s id rp now = .ok s'
        ∧ s'.reports.length = s.reports.length
        ∧ ∀ (k : Nat) (hk : k < s.reports.length)
            (hk' : k < s'.reports.length),
            ((s.reports[k]).id ≠ id → s'.reports[k] = s.reports[k])
            ∧ ((s.reports[k]).id = id →
                (s'.reports[k]).id = (s.reports[k]).id
                ∧ (s'.reports[k]).projectId = (s.reports[k]).projectId
                ∧ (s'.reports[k]).createdAt = (s.reports[k]).createdAt
                ∧ (s'.reports[k]).createdBy = (s.reports[k]).createdBy
                ∧ (s'.reports[k]).title = rp.title.getD (s.reports[k]).title
                ∧ (s'.reports[k]).description
                    = rp.description.getD (s.reports[k]).description
                ∧ (s'.reports[k]).fields
                    = rp.fields.getD (s.reports[k]).fields
                ∧ (s'.reports[k]).permissions
                    = rp.permissions.getD (s.reports[k]).permissions
                ∧ (s'.reports[k]).status
                    = rp.status.getD (s.reports[k]).status
                ∧ (s'.reports[k]).updatedAt = now)) := by
  have hens : DatabaseService.ensureInitialized s = s := by
    simp [DatabaseService.ensureInitialized, DatabaseService.isInitialized,
      hdb]
  have hcond : (!s.dbInit) = false := by simp [hdb]
  refine ⟨?_, ?_, ?_, ?_⟩
  · intro habsent
    unfold DatabaseService.updateSubmission
    rw [if_neg (by simp [hdb])]
    have hmap : s.submissions.map
        (fun sub => if sub.id == id
          then DatabaseService.applySubmissionPatch sub p now else sub)
        = s.submissions := by
      apply map_fixes_eq_self
      intro a ha
      rw [if_neg (by simp [habsent a ha])]
    rw [hmap]
  · have hstep : DatabaseService.updateSubmission s id p now
        = .ok { s with
                 submissions := s.submissions.map
                   (fun sub => if sub.id == id
                     then DatabaseService.applySubmissionPatch sub p now
                     else sub) } := by
      unfold DatabaseService.updateSubmission
      rw [if_neg (by simp [hdb])]
    refine ⟨_, hstep, by simp, ?_⟩
    intro k hk hk'
    constructor
    · intro hne
      simp [List.getElem_map, hne]
    · intro heq
      simp [List.getElem_map, heq, DatabaseService.applySubmissionPatch]
  · intro habsent
    unfold DatabaseService.updateReport
    rw [hens, if_neg (by simp [hdb])]
    have hmap : s.reports.map
        (fun r => if r.id == id
          then DatabaseService.applyReportPatch r rp now else r)
        = s.reports := by
      apply map_fixes_eq_self
      intro a ha
      rw [if_neg (by simp [habsent a ha])]
    rw [hmap]
  · have hstep : DatabaseService.updateReport s id rp now
        = .ok { s with
                 reports := s.reports.map
                   (fun r => if r.id == id
                     then DatabaseService.applyReportPatch r rp now
                     else r) } := by
      unfold DatabaseService.updateReport
      rw [hens, if_neg (by simp [hdb])]
    refine ⟨_, hstep, by simp, ?_⟩
    intro k hk hk'
    constructor
    · intro hne
      simp [List.getElem_map, hne]
    · intro heq
      simp [List.getElem_map, heq, DatabaseService.applyReportPatch]

/-- Witness for C5's amended theorem: one stored submission and one stored
report, patched at their own ids and at a missing id. -/
theorem update_merges_and_refreshes_witness :
    emptyInitState.dbInit = true
    ∧ ((∀ sub ∈ emptyInitState.submissions, sub.id ≠ "x") →
        DatabaseService.updateSubmission emptyInitState "x"
          { data := none, status := none, submittedAt := none,
            syncStatus := some SyncStatus.pending } 3 = .ok emptyInitState) := by
  have h := update_merges_and_refreshes emptyInitState rfl "x"
    { data := none, status := none, submittedAt := none,
      syncStatus := some SyncStatus.pending }
    { title := some "t", description := none, fields := none,
      permissions := none, status := none } 3
  exact ⟨rfl, h.1⟩

/-! C7 — the active listing `getPendingSyncItems`. -/

/-- C7: on an initialized store, `getPendingSyncItems` returns exactly the
queue entries whose attempts count is strictly below 3, in non-decreasing
`createdAt` order (oldest first); entries at or above the cap are excluded
from the listing.  The function is a pure read, so the stored queue itself
is untouched. -/
theorem getPendingSyncItems_active_and_sorted (s : DBState)
    (hdb : s.dbInit = true) :
    ∃ items, DatabaseService.getPendingSyncItems s = .ok items
      ∧ (∀ e, e ∈ items ↔ (e ∈ s.sync_queue ∧ e.attempts < 3))
      ∧ items.Sorted createdAtAsc
      ∧ (∀ e ∈ s.sync_queue, 3 ≤ e.attempts → e ∉ items) := by
  refine ⟨_, by unfold DatabaseService.getPendingSyncItems
                rw [if_neg (by simp [hdb])], ?_, ?_, ?_⟩
  · intro e
    rw [List.mem_insertionSort, List.mem_filter]
    simp
  · exact List.sorted_insertionSort createdAtAsc _
  · intro e hmem hcap hin
    rw [List.mem_insertionSort, List.mem_filter] at hin
    have := hin.2
    simp at this
    omega

/-- Witness for C7 on a queue holding active and exhausted entries enqueued
out of creation order. -/
theorem getPendingSyncItems_active_and_sorted_witness :
    stateWithQueueMix.dbInit = true
    ∧ ∃ items,
        DatabaseService.getPendingSyncItems stateWithQueueMix = .ok items
        ∧ (∀ e, e ∈ items ↔ (e ∈ stateWithQueueMix.sync_queue
            ∧ e.attempts < 3))
        ∧ items.Sorted createdAtAsc
        ∧ (∀ e ∈ stateWithQueueMix.sync_queue, 3 ≤ e.attempts →
            e ∉ items) :=
  ⟨rfl, getPendingSyncItems_active_and_sorted stateWithQueueMix rfl⟩

/-! C8 — recording the outcome of a drain attempt. -/

/-- C8: for a queue entry processed in a drain pass (`processOneItem`, the
loop body of `processSyncQueue`), a successful attempt deletes every stored
row carrying the entry's id, while a failed attempt keeps the queue the same
size, leaves every other entry untouched, and replaces the entry by one whose
attempts count is incremented by exactly one, whose `lastAttempt` carries the
attempt time, and whose error column records the transport message. -/
theorem recordAttempt_deletes_or_increments (s : DBState)
    (hdb : s.dbInit = true) (item : SyncQueue) (hmem : item ∈ s.sync_queue)
    (msg : String) (now : Nat) :
    (∃ s', SyncService.processOneItem s item true msg now = .ok s'
      ∧ ∀ e, e ∈ s'.sync_queue ↔ (e ∈ s.sync_queue ∧ e.id ≠ item.id))
    ∧ (∃ s', SyncService.processOneItem s item false msg now = .ok s'
      ∧ s'.sync_queue.length = s.sync_queue.length
      ∧ { item with
            attempts := item.attempts + 1,
            lastAttempt := some now,
            error := some msg } ∈ s'.sync_queue
      ∧ (∀ e ∈ s.sync_queue, e.id ≠ item.id → e ∈ s'.sync_queue)) := by
  have hrem : DatabaseService.removeSyncQueueItem s item.id
      = .ok { s with
               sync_queue := s.sync_queue.filter
                 (fun e => !(e.id == item.id)) } := by
    unfold DatabaseService.removeSyncQueueItem
    rw [if_neg (by simp [hdb])]
  have hupd : DatabaseService.updateSyncQueueItem s item.id
      (item.attempts + 1) (some msg) now
      = .ok { s with
               sync_queue := s.sync_queue.map
                 (fun e => if e.id == item.id then
                     { e with
                         attempts := item.attempts + 1,
                         lastAttempt := some now,
                         error := some msg }
                   else e) } := by
    unfold DatabaseService.updateSyncQueueItem
    rw [if_neg (by simp [hdb])]
  constructor
  · refine ⟨_, by unfold SyncService.processOneItem
                  rw [if_pos rfl, hrem], ?_⟩
    intro e
    rw [List.mem_filter]
    simp
  · refine ⟨_, by unfold SyncService.processOneItem
                  rw [if_neg (by simp), hupd], by simp, ?_, ?_⟩
    · have himg : (fun e => if e.id == item.id then
          { e with
              attempts := item.attempts + 1,
              lastAttempt := some now,
              error := some msg }
        else e) item
          = { item with
                attempts := item.attempts + 1,
                lastAttempt := some now,
                error := some msg } := by
        simp
      have := List.mem_map_of_mem (fun e => if e.id == item.id then
          { e with
              attempts := item.attempts + 1,
              lastAttempt := some now,
              error := some msg }
        else e) hmem
      rw [himg] at this
      exact this
    · intro e he hne
      have himg : (fun e => if e.id == item.id then
          { e with
              attempts := item.attempts + 1,
              lastAttempt := some now,
              error := some msg }
        else e) e = e := by
        simp [hne]
      have := List.mem_map_of_mem (fun e => if e.id == item.id then
          { e with
              attempts := item.attempts + 1,
              lastAttempt := some now,
              error := some msg }
        else e) he
      rw [himg] at this
      exact this

/-- Witness for C8 on the mixed queue, processing its newest active entry. -/
theorem recordAttempt_deletes_or_increments_witness :
    stateWithQueueMix.dbInit = true
    ∧ queueEntryNew ∈ stateWithQueueMix.sync_queue
    ∧ ((∃ s', SyncService.processOneItem stateWithQueueMix queueEntryNew true
          "Network error" 77 = .ok s'
        ∧ ∀ e, e ∈ s'.sync_queue ↔ (e ∈ stateWithQueueMix.sync_queue
            ∧ e.id ≠ queueEntryNew.id))
      ∧ (∃ s', SyncService.processOneItem stateWithQueueMix queueEntryNew false
          "Network error" 77 = .ok s'
        ∧ s'.sync_queue.length = stateWithQueueMix.sync_queue.length
        ∧ { queueEntryNew with
              attempts := queueEntryNew.attempts + 1,
              lastAttempt := some 77,
              error := some "Network error" } ∈ s'.sync_queue
        ∧ (∀ e ∈ stateWithQueueMix.sync_queue, e.id ≠ queueEntryNew.id →
            e ∈ s'.sync_queue))) :=
  ⟨rfl, by decide,
    recordAttempt_deletes_or_increments stateWithQueueMix rfl queueEntryNew
      (by decide) "Network error" 77⟩

/-! C10 — login auto-provisioning versus register. -/

/-- C10: on an initialized store, a `login` whose email matches no stored
user creates a brand-new user with role `admin` and name equal to the email's
local part and authenticates successfully; the outcome never depends on the
supplied password.  `register`, by contrast, creates users with role `user`
and rejects an email that already exists. -/
theorem login_admin_register_user (s : DBState) (now : Nat)
    (hdb : s.dbInit = true) :
    (∀ c : LoginCredentials,
        (∀ u ∈ s.users, u.email ≠ c.email) →
        (∀ u ∈ s.users, u.id ≠ genId s.nextId) →
        ∃ u s', Auth.login s c now = .ok (u, s')
          ∧ u.role = Role.admin ∧ u.email = c.email
          ∧ u.name = Auth.localPart c.email ∧ u ∈ s'.users)
    ∧ (∀ email pw pw',
        Auth.login s { email := email, password := pw } now
          = Auth.login s { email := email, password := pw' } now)
    ∧ (∀ d : RegisterData, (∃ u ∈ s.users, u.email = d.email) →
        Auth.register s d now = .error AuthError.userAlreadyExists)
    ∧ (∀ d : RegisterData,
        (∀ u ∈ s.users, u.email ≠ d.email) →
        (∀ u ∈ s.users, u.id ≠ genId s.nextId) →
        ∃ u s', Auth.register s d now = .ok (u, s')
          ∧ u.role = Role.user ∧ u.email = d.email ∧ u.name = d.name
          ∧ u ∈ s'.users) := by
  refine ⟨?_, ?_, ?_, ?_⟩
  · intro c hnew hfresh
    have h1 : List.find? (fun u => u.email == c.email) s.users = none := by
      apply List.find?_eq_none.mpr
      intro a ha
      simp [hnew a ha]
    have h2 : List.find? (fun u => u.id == genId s.nextId)
        (s.users ++
          [({ id := genId s.nextId,
              email := c.email,
              name := Auth.localPart c.email,
              role := Role.admin,
              createdAt := now,
              updatedAt := now } : User)])
        = some { id := genId s.nextId,
                 email := c.email,
                 name := Auth.localPart c.email,
                 role := Role.admin,
                 createdAt := now,
                 updatedAt := now } := by
      rw [find?_append_of_notfound _ _ _ (by
        intro a ha
        simp [hfresh a ha])]
      simp [List.find?]
    refine ⟨{ id := genId s.nextId,
              email := c.email,
              name := Auth.localPart c.email,
              role := Role.admin,
              createdAt := now,
              updatedAt := now },
            { s with
                users := s.users ++
                  [({ id := genId s.nextId,
                      email := c.email,
                      name := Auth.localPart c.email,
                      role := Role.admin,
                      createdAt := now,
                      updatedAt := now } : User)],
                nextId := s.nextId + 1 },
            ?_, rfl, rfl, rfl, by simp⟩
    simp only [Auth.login, DatabaseService.getUserByEmail,
      DatabaseService.createUser, DatabaseService.getUserById, hdb, h1, h2,
      Bool.not_true, if_false, ite_false, Bool.false_eq_true]
  · intro email pw pw'
    rfl
  · intro d hexists
    obtain ⟨u, hu, hemail⟩ := hexists
    have h1 : ∃ v, s.users.find? (fun x => x.email == d.email) = some v := by
      have : (s.users.find? (fun x => x.email == d.email)).isSome := by
        apply List.find?_isSome.mpr
        exact ⟨u, hu, by simp [hemail]⟩
      exact Option.isSome_iff_exists.mp this
    obtain ⟨v, hv⟩ := h1
    simp only [Auth.register, DatabaseService.getUserByEmail, hdb, hv,
      Bool.not_true, if_false, ite_false, Bool.false_eq_true]
  · intro d hnew hfresh
    have h1 : List.find? (fun u => u.email == d.email) s.users = none := by
      apply List.find?_eq_none.mpr
      intro a ha
      simp [hnew a ha]
    have h2 : List.find? (fun u => u.id == genId s.nextId)
        (s.users ++
          [({ id := genId s.nextId,
              email := d.email,
              name := d.name,
              role := Role.user,
              createdAt := now,
              updatedAt := now } : User)])
        = some { id := genId s.nextId,
                 email := d.email,
                 name := d.name,
                 role := Role.user,
                 createdAt := now,
                 updatedAt := now } := by
      rw [find?_append_of_notfound _ _ _ (by
        intro a ha
        simp [hfresh a ha])]
      simp [List.find?]
    refine ⟨{ id := genId s.nextId,
              email := d.email,
              name := d.name,
              role := Role.user,
              createdAt := now,
              updatedAt := now },
            { s with
                users := s.users ++
                  [({ id := genId s.nextId,
                      email := d.email,
                      name := d.name,
                      role := Role.user,
                      createdAt := now,
                      updatedAt := now } : User)],
                nextId := s.nextId + 1 },
            ?_, rfl, rfl, rfl, by simp⟩
    simp only [Auth.register, DatabaseService.getUserByEmail,
      DatabaseService.createUser, DatabaseService.getUserById, hdb, h1, h2,
      Bool.not_true, if_false, ite_false, Bool.false_eq_true]

/-- Witness for C10 on the empty initialized store. -/
theorem login_admin_register_user_witness :
    emptyInitState.dbInit = true
    ∧ ((∀ u ∈ emptyInitState.users, u.email ≠ "ana@example.com") →
        (∀ u ∈ emptyInitState.users, u.id ≠ genId emptyInitState.nextId) →
        ∃ u s', Auth.login emptyInitState
            { email := "ana@example.com", password := "whatever" } 3
            = .ok (u, s')
          ∧ u.role = Role.admin ∧ u.email = "ana@example.com"
          ∧ u.name = Auth.localPart "ana@example.com" ∧ u ∈ s'.users) := by
  have h := login_admin_register_user emptyInitState 3 rfl
  exact ⟨rfl, fun h1 h2 =>
    h.1 { email := "ana@example.com", password := "whatever" } h1 h2⟩

/-! C6 — saveDraft followed by an immediate read. -/

/-- C6: on an initialized store whose id generator is fresh, saving a
submission offline succeeds, an immediate `getById` on the returned id yields
a submission with `syncStatus = pending` (for the right report and user), and
exactly one active queue entry (attempts < 3) carries the new id as its
`entityId` — with `action = create` and `attempts = 0`. -/
theorem saveDraft_pending_with_one_queue_entry (st : SyncState)
    (reportId userId : String) (data : Data) (status : SubmissionStatus)
    (now : Nat) (hdb : st.db.dbInit = true)
    (hfresh : ∀ sub ∈ st.db.submissions, sub.id ≠ genId st.db.nextId)
    (hqfresh : ∀ e ∈ st.db.sync_queue, e.entityId ≠ genId st.db.nextId) :
    ∃ id st', SyncService.saveSubmissionOffline st reportId userId data status
        now = .ok (id, st')
      ∧ (∃ sub, DatabaseService.getSubmissionById st'.db id = some sub
          ∧ sub.syncStatus = SyncStatus.pending
          ∧ sub.reportId = reportId ∧ sub.userId = userId)
      ∧ (st'.db.sync_queue.filter
          (fun e => e.entityId == id && decide (e.attempts < 3))).length = 1
      ∧ (∀ e ∈ st'.db.sync_queue, e.entityId = id →
          e.action = SyncAction.create ∧ e.attempts = 0) := by
  refine ⟨genId st.db.nextId, _,
    saveSubmissionOffline_spec st reportId userId data status now hdb,
    ?_, ?_, ?_⟩
  · refine ⟨{ id := genId st.db.nextId,
              reportId := reportId,
              userId := userId,
              data := data,
              status := status,
              submittedAt := if status == SubmissionStatus.submitted
                             then some now else none,
              lastModified := now,
              version := 1,
              isOffline := true,
              syncStatus := SyncStatus.pending }, ?_, rfl, rfl, rfl⟩
    unfold DatabaseService.getSubmissionById
    rw [find?_append_of_notfound _ _ _ (by
      intro a ha
      simp [hfresh a ha])]
    simp [List.find?]
  · rw [List.filter_append]
    have hold : st.db.sync_queue.filter
        (fun e => e.entityId == genId st.db.nextId
          && decide (e.attempts < 3)) = [] := by
      rw [List.filter_eq_nil_iff]
      intro e he
      simp [hqfresh e he]
    rw [hold]
    simp [List.filter]
  · intro e he hid
    rcases List.mem_append.mp he with hl | hr
    · exact absurd hid (hqfresh e hl)
    · rcases List.mem_singleton.mp hr with rfl
      exact ⟨rfl, rfl⟩

/-- Witness for C6 on the empty initialized store. -/
theorem saveDraft_pending_with_one_queue_entry_witness :
    emptyInitState.dbInit = true
    ∧ ∃ id st', SyncService.saveSubmissionOffline
        { db := emptyInitState, isOnline := false, syncInProgress := false }
        "r1" "u1" [("f1", "hello")] SubmissionStatus.draft 30 = .ok (id, st')
      ∧ (∃ sub, DatabaseService.getSubmissionById st'.db id = some sub
          ∧ sub.syncStatus = SyncStatus.pending
          ∧ sub.reportId = "r1" ∧ sub.userId = "u1")
      ∧ (st'.db.sync_queue.filter
          (fun e => e.entityId == id && decide (e.attempts < 3))).length = 1
      ∧ (∀ e ∈ st'.db.sync_queue, e.entityId = id →
          e.action = SyncAction.create ∧ e.attempts = 0) :=
  ⟨rfl, saveDraft_pending_with_one_queue_entry
    { db := emptyInitState, isOnline := false, syncInProgress := false }
    "r1" "u1" [("f1", "hello")] SubmissionStatus.draft 30 rfl
    (by decide) (by decide)⟩

/-! C2 — transport failures never reach the caller. -/

/-- C2: a `saveDraft`/`submit` call (the offline save or update together with
the sync pass it fires) returns successfully exactly when the local store
write lands — its outcome, and the returned submission id, are the same under
every transport oracle, including an all-failing one; a transport failure is
therefore never raised to the caller and can only surface asynchronously in
the stored sync state. -/
theorem transport_failure_never_raised (st : SyncState)
    (reportId userId submissionId : String) (data : Data)
    (status : SubmissionStatus) (ostatus : Option SubmissionStatus)
    (outs1 outs2 outs1' outs2' : List Bool) (msg msg' : String) (now : Nat) :
    (SyncService.saveSubmissionOfflineAndSync st reportId userId data status
        outs1 outs2 msg now).isOk = st.db.dbInit
    ∧ (SyncService.saveSubmissionOfflineAndSync st reportId userId data status
        outs1 outs2 msg now).map Prod.fst
      = (SyncService.saveSubmissionOfflineAndSync st reportId userId data
          status outs1' outs2' msg' now).map Prod.fst
    ∧ (SyncService.updateSubmissionOfflineAndSync st submissionId data ostatus
        outs1 outs2 msg now).isOk = st.db.dbInit := by
  by_cases hdb : st.db.dbInit = true
  · have h1 := saveSubmissionOffline_spec st reportId userId data status now
      hdb
    have h2 := updateSubmissionOffline_spec st submissionId data ostatus now
      hdb
    refine ⟨?_, ?_, ?_⟩
    · simp [SyncService.saveSubmissionOfflineAndSync, h1, Except.isOk,
        Except.toBool, hdb]
    · simp [SyncService.saveSubmissionOfflineAndSync, h1, Except.map]
    · simp [SyncService.updateSubmissionOfflineAndSync, h2, Except.isOk,
        Except.toBool, hdb]
  · have hdb' : st.db.dbInit = false := by
      revert hdb
      cases st.db.dbInit <;> simp
    refine ⟨?_, ?_, ?_⟩ <;>
      simp [SyncService.saveSubmissionOfflineAndSync,
        SyncService.updateSubmissionOfflineAndSync,
        SyncService.saveSubmissionOffline,
        SyncService.updateSubmissionOffline,
        DatabaseService.createSubmission, DatabaseService.updateSubmission,
        hdb', Except.isOk, Except.toBool]

/-! Helper lemmas about the drain pass, used for the syncStatus invariant. -/

/-- Processing one queue entry on an initialized store succeeds and does not
touch the submissions table. -/
theorem processOneItem_preserves (s : DBState) (item : SyncQueue) (ok : Bool)
    (msg : String) (now : Nat) (hdb : s.dbInit = true) :
    ∃ s1, SyncService.processOneItem s item ok msg now = .ok s1
      ∧ s1.dbInit = true ∧ s1.submissions = s.submissions := by
  have hrem : DatabaseService.removeSyncQueueItem s item.id
      = .ok { s with
               sync_queue := s.sync_queue.filter
                 (fun e => !(e.id == item.id)) } := by
    unfold DatabaseService.removeSyncQueueItem
    rw [if_neg (by simp [hdb])]
  have hupd : DatabaseService.updateSyncQueueItem s item.id
      (item.attempts + 1) (some msg) now
      = .ok { s with
               sync_queue := s.sync_queue.map
                 (fun e => if e.id == item.id then
                     { e with
                         attempts := item.attempts + 1,
                         lastAttempt := some now,
                         error := some msg }
                   else e) } := by
    unfold DatabaseService.updateSyncQueueItem
    rw [if_neg (by simp [hdb])]
  cases ok with
  | true =>
    refine ⟨{ s with
               sync_queue := s.sync_queue.filter
                 (fun e => !(e.id == item.id)) },
      ?_, hdb, rfl⟩
    simp [SyncService.processOneItem, hrem]
  | false =>
    refine ⟨{ s with
               sync_queue := s.sync_queue.map
                 (fun e => if e.id == item.id then
                     { e with
                         attempts := item.attempts + 1,
                         lastAttempt := some now,
                         error := some msg }
                   else e) },
      ?_, hdb, rfl⟩
    simp [SyncService.processOneItem, hupd]

/-- The queue-drain loop on an initialized store succeeds and does not touch
the submissions table. -/
theorem processSyncQueueLoop_preserves :
    ∀ (items : List SyncQueue) (outs : List Bool) (msg : String) (now : Nat)
      (s : DBState), s.dbInit = true →
    ∃ s1, SyncService.processSyncQueueLoop s items outs msg now = .ok s1
      ∧ s1.dbInit = true ∧ s1.submissions = s.submissions
  | [], _, _, _, s, hdb => ⟨s, rfl, hdb, rfl⟩
  | item :: rest, outs, msg, now, s, hdb => by
    obtain ⟨s1, h1, hdb1, hsub1⟩ :=
      processOneItem_preserves s item (outs.headD true) msg now hdb
    obtain ⟨s2, h2, hdb2, hsub2⟩ :=
      processSyncQueueLoop_preserves rest outs.tail msg now s1 hdb1
    refine ⟨s2, ?_, hdb2, hsub2.trans hsub1⟩
    unfold SyncService.processSyncQueueLoop
    rw [h1]
    exact h2

/-- A full `processSyncQueue` on an initialized store succeeds and does not
touch the submissions table. -/
theorem processSyncQueue_preserves (s : DBState) (outs : List Bool)
    (msg : String) (now : Nat) (hdb : s.dbInit = true) :
    ∃ s1, SyncService.processSyncQueue s outs msg now = .ok s1
      ∧ s1.dbInit = true ∧ s1.submissions = s.submissions := by
  obtain ⟨s1, h1, hdb1, hsub1⟩ := processSyncQueueLoop_preserves
    (List.insertionSort createdAtAsc
      (s.sync_queue.filter (fun e => e.attempts < 3))) outs msg now s hdb
  refine ⟨s1, ?_, hdb1, hsub1⟩
  unfold SyncService.processSyncQueue DatabaseService.getPendingSyncItems
  rw [if_neg (by simp [hdb])]
  exact h1

/-- The removal loop of `clearFailedSyncItems` on an initialized store
succeeds and does not touch the submissions table. -/
theorem clearFailed_removeAll_preserves :
    ∀ (items : List SyncQueue) (s : DBState), s.dbInit = true →
    ∃ s1, SyncService.clearFailedSyncItems.removeAll s items = .ok s1
      ∧ s1.submissions = s.submissions
  | [], s, _ => ⟨s, rfl, rfl⟩
  | item :: rest, s, hdb => by
    have hrem : DatabaseService.removeSyncQueueItem s item.id
        = .ok { s with
                 sync_queue := s.sync_queue.filter
                   (fun e => !(e.id == item.id)) } := by
      unfold DatabaseService.removeSyncQueueItem
      rw [if_neg (by simp [hdb])]
    obtain ⟨s1, h1, hsub1⟩ := clearFailed_removeAll_preserves rest
      { s with
        sync_queue := s.sync_queue.filter (fun e => !(e.id == item.id)) } hdb
    refine ⟨s1, ?_, hsub1.trans rfl⟩
    unfold SyncService.clearFailedSyncItems.removeAll
    rw [hrem]
    exact h1

/-- Pushing one pending submission on an initialized store succeeds and
rewrites exactly the rows carrying its id to `synced` or `error`, stamping
`lastModified`. -/
theorem syncOneSubmission_spec (s : DBState) (sub : ReportSubmission)
    (ok : Bool) (now : Nat) (hdb : s.dbInit = true) :
    ∃ v s1, (v = SyncStatus.synced ∨ v = SyncStatus.error)
      ∧ SyncService.syncOneSubmission s sub ok now = .ok s1
      ∧ s1.dbInit = true
      ∧ s1.submissions = s.submissions.map (fun x =>
          if x.id == sub.id
          then { x with syncStatus := v, lastModified := now }
          else x) := by
  have hupd : ∀ v : SyncStatus, DatabaseService.updateSubmission s sub.id
      (SyncService.onlySyncStatus v) now
      = .ok { s with
               submissions := s.submissions.map (fun x =>
                 if x.id == sub.id
                 then { x with syncStatus := v, lastModified := now }
                 else x) } := by
    intro v
    unfold DatabaseService.updateSubmission
    rw [if_neg (by simp [hdb])]
    rfl
  cases ok with
  | true =>
    refine ⟨SyncStatus.synced,
      { s with
        submissions := s.submissions.map (fun x =>
          if x.id == sub.id
          then { x with syncStatus := SyncStatus.synced, lastModified := now }
          else x) },
      Or.inl rfl, ?_, hdb, rfl⟩
    simp [SyncService.syncOneSubmission, hupd SyncStatus.synced]
  | false =>
    refine ⟨SyncStatus.error,
      { s with
        submissions := s.submissions.map (fun x =>
          if x.id == sub.id
          then { x with syncStatus := SyncStatus.error, lastModified := now }
          else x) },
      Or.inr rfl, ?_, hdb, rfl⟩
    simp [SyncService.syncOneSubmission, hupd SyncStatus.error]

/-- The submission-push loop on an initialized store succeeds and applies a
per-row function that either leaves a row alone or — for rows whose id occurs
in the processed snapshot — flips its syncStatus to `synced` or `error` and
restamps `lastModified`. -/
theorem syncPendingSubmissionsLoop_spec :
    ∀ (items : List ReportSubmission) (outs : List Bool) (now : Nat)
      (s : DBState), s.dbInit = true →
    ∃ s1 F, SyncService.syncPendingSubmissionsLoop s items outs now = .ok s1
      ∧ s1.dbInit = true
      ∧ s1.submissions = s.submissions.map F
      ∧ ∀ x, F x = x
        ∨ ((∃ i ∈ items, i.id = x.id) ∧ ∃ v t,
            (v = SyncStatus.synced ∨ v = SyncStatus.error)
            ∧ F x = { x with syncStatus := v, lastModified := t })
  | [], _, _, s, hdb => by
    refine ⟨s, id, rfl, hdb, (List.map_id s.submissions).symm, ?_⟩
    intro x
    exact Or.inl rfl
  | item :: rest, outs, now, s, hdb => by
    obtain ⟨v, s1, hv, h1, hdb1, hsub1⟩ :=
      syncOneSubmission_spec s item (outs.headD true) now hdb
    obtain ⟨s2, F, h2, hdb2, hsub2, hF⟩ :=
      syncPendingSubmissionsLoop_spec rest outs.tail now s1 hdb1
    refine ⟨s2, F ∘ (fun x =>
        if x.id == item.id
        then { x with syncStatus := v, lastModified := now }
        else x), ?_, hdb2, ?_, ?_⟩
    · unfold SyncService.syncPendingSubmissionsLoop
      rw [h1]
      exact h2
    · rw [hsub2, hsub1, List.map_map]
    · intro x
      by_cases hc : x.id = item.id
      · rcases hF { x with syncStatus := v, lastModified := now } with hy |
          ⟨⟨i, hi, hiid⟩, v', t', hv', hFy⟩
        · refine Or.inr ⟨⟨item, List.mem_cons_self item rest, hc.symm⟩,
            v, now, hv, ?_⟩
          simp only [Function.comp]
          rw [if_pos (by simp [hc])]
          exact hy
        · refine Or.inr ⟨⟨i, List.mem_cons_of_mem item hi, ?_⟩, v', t', hv',
            ?_⟩
          · exact hiid
          · simp only [Function.comp]
            rw [if_pos (by simp [hc])]
            exact hFy
      · rcases hF x with hy | ⟨⟨i, hi, hiid⟩, v', t', hv', hFy⟩
        · refine Or.inl ?_
          simp only [Function.comp]
          rw [if_neg (by simp [hc])]
          exact hy
        · refine Or.inr ⟨⟨i, List.mem_cons_of_mem item hi, hiid⟩, v', t',
            hv', ?_⟩
          simp only [Function.comp]
          rw [if_neg (by simp [hc])]
          exact hFy

/-- A full `syncPendingSubmissions` on an initialized store succeeds and
applies a per-row function that either leaves a row alone or — only for rows
sharing an id with some stored pending submission — flips its syncStatus to
`synced` or `error`. -/
theorem syncPendingSubmissions_spec (s : DBState) (outs : List Bool)
    (now : Nat) (hdb : s.dbInit = true) :
    ∃ s1 F, SyncService.syncPendingSubmissions s outs now = .ok s1
      ∧ s1.dbInit = true
      ∧ s1.submissions = s.submissions.map F
      ∧ ∀ x, F x = x
        ∨ ((∃ i ∈ s.submissions, i.syncStatus = SyncStatus.pending
              ∧ i.id = x.id)
           ∧ ∃ v t, (v = SyncStatus.synced ∨ v = SyncStatus.error)
             ∧ F x = { x with syncStatus := v, lastModified := t }) := by
  have hens : DatabaseService.ensureInitialized s = s := by
    simp [DatabaseService.ensureInitialized, DatabaseService.isInitialized,
      hdb]
  obtain ⟨s1, F, hloop, hdb1, hsubs, hF⟩ := syncPendingSubmissionsLoop_spec
    ((List.insertionSort subLastModifiedDesc
        (s.submissions.filter
          (fun sub => sub.userId == "current_user_id"))).filter
      (fun sub => sub.syncStatus == SyncStatus.pending))
    outs now s hdb
  refine ⟨s1, F, ?_, hdb1, hsubs, ?_⟩
  · unfold SyncService.syncPendingSubmissions
      DatabaseService.getSubmissionsByUserId
    rw [hens, if_neg (by simp [hdb])]
    exact hloop
  · intro x
    rcases hF x with h | ⟨⟨i, hi, hiid⟩, v, t, hv, hFx⟩
    · exact Or.inl h
    · refine Or.inr ⟨⟨i, ?_, ?_, hiid⟩, v, t, hv, hFx⟩
      · have hmem := (List.mem_filter.mp hi).1
        rw [List.mem_insertionSort] at hmem
        exact (List.mem_filter.mp hmem).1
      · have hpend := (List.mem_filter.mp hi).2
        simpa using hpend

/-- A successful `login` never touches the submissions table. -/
theorem login_preserves_submissions (s : DBState) (c : LoginCredentials)
    (now : Nat) (u : User) (s' : DBState)
    (h : Auth.login s c now = .ok (u, s')) : s'.submissions = s.submissions := by
  unfold Auth.login at h
  split at h
  · exact absurd h (by simp)
  · obtain ⟨-, h2⟩ := Prod.mk.inj (Except.ok.inj h)
    rw [← h2]
  · rename_i heq1
    split at h
    · exact absurd h (by simp)
    · rename_i r heq2
      split at h
      · exact absurd h (by simp)
      · exact absurd h (by simp)
      · rename_i u1 heq3
        obtain ⟨-, h2⟩ := Prod.mk.inj (Except.ok.inj h)
        rw [← h2]
        unfold DatabaseService.createUser at heq2
        split at heq2
        · exact absurd heq2 (by simp)
        · obtain h3 := Except.ok.inj heq2
          rw [← h3]

/-- A successful `register` never touches the submissions table. -/
theorem register_preserves_submissions (s : DBState) (d : RegisterData)
    (now : Nat) (u : User) (s' : DBState)
    (h : Auth.register s d now = .ok (u, s')) :
    s'.submissions = s.submissions := by
  unfold Auth.register at h
  split at h
  · exact absurd h (by simp)
  · exact absurd h (by simp)
  · rename_i heq1
    split at h
    · exact absurd h (by simp)
    · rename_i r heq2
      split at h
      · exact absurd h (by simp)
      · exact absurd h (by simp)
      · rename_i u1 heq3
        obtain ⟨-, h2⟩ := Prod.mk.inj (Except.ok.inj h)
        rw [← h2]
        unfold DatabaseService.createUser at heq2
        split at heq2
        · exact absurd heq2 (by simp)
        · obtain h3 := Except.ok.inj heq2
          rw [← h3]

/-- `ensureInitialized` never touches the submissions table. -/
theorem ensureInitialized_submissions (s : DBState) :
    (DatabaseService.ensureInitialized s).submissions = s.submissions := by
  unfold DatabaseService.ensureInitialized DatabaseService.init
    DatabaseService.isInitialized
  split_ifs <;> rfl

/-- On an uninitialized handle, `saveSubmissionOffline` throws up front. -/
theorem saveSubmissionOffline_notInit (st : SyncState)
    (reportId userId : String) (data : Data) (status : SubmissionStatus)
    (now : Nat) (hdb : st.db.dbInit = false) :
    SyncService.saveSubmissionOffline st reportId userId data status now
      = .error DBError.notInitialized := by
  simp [SyncService.saveSubmissionOffline, DatabaseService.createSubmission,
    hdb]

/-- On an uninitialized handle, `updateSubmissionOffline` throws up front. -/
theorem updateSubmissionOffline_notInit (st : SyncState)
    (submissionId : String) (data : Data) (status : Option SubmissionStatus)
    (now : Nat) (hdb : st.db.dbInit = false) :
    SyncService.updateSubmissionOffline st submissionId data status now
      = .error DBError.notInitialized := by
  simp [SyncService.updateSubmissionOffline,
    DatabaseService.updateSubmission, hdb]

/-! C9 — the syncStatus transition invariant. -/

/-- C9: for every operation of the system and every submission present before
and after it (tracked by id, ids being unique), a change of `syncStatus` is
either the sync engine resolving a pending submission (pending to synced or
pending to error) or a local edit re-marking the submission pending — so no
operation other than a local edit ever moves a submission from synced (or
error) back to pending, and the engine only touches pending submissions. -/
theorem syncStatus_transition_safety (op : Op) (st : SyncState)
    (hn : (st.db.submissions.map (fun x => x.id)).Nodup)
    (sub : ReportSubmission) (hsub : sub ∈ st.db.submissions)
    (sub' : ReportSubmission) (hsub' : sub' ∈ (applyOp op st).db.submissions)
    (hid : sub'.id = sub.id) (hne : sub'.syncStatus ≠ sub.syncStatus) :
    (sub.syncStatus = SyncStatus.pending
      ∧ (sub'.syncStatus = SyncStatus.synced
         ∨ sub'.syncStatus = SyncStatus.error))
    ∨ (Op.isLocalEdit op = true ∧ sub'.syncStatus = SyncStatus.pending) := by
  have hstop : sub' ∈ st.db.submissions → False := by
    intro hmem
    have heq := eq_of_mem_of_nodup_ids st.db.submissions hn hmem hsub hid
    exact hne (by rw [heq])
  cases op with
  | saveOffline reportId userId data status now =>
    by_cases hdb : st.db.dbInit = true
    · have happ : (applyOp (Op.saveOffline reportId userId data status now)
          st).db.submissions
          = st.db.submissions ++
            [({ id := genId st.db.nextId,
                reportId := reportId,
                userId := userId,
                data := data,
                status := status,
                submittedAt := if status == SubmissionStatus.submitted
                               then some now else none,
                lastModified := now,
                version := 1,
                isOffline := true,
                syncStatus := SyncStatus.pending } : ReportSubmission)] := by
        simp only [applyOp,
          saveSubmissionOffline_spec st reportId userId data status now hdb]
      rw [happ] at hsub'
      rcases List.mem_append.mp hsub' with hl | hr
      · exact (hstop hl).elim
      · refine Or.inr ⟨rfl, ?_⟩
        rw [List.mem_singleton.mp hr]
    · have hdb' : st.db.dbInit = false := by
        revert hdb
        cases st.db.dbInit <;> simp
      have happ : applyOp (Op.saveOffline reportId userId data status now) st
          = st := by
        simp only [applyOp, saveSubmissionOffline_notInit st reportId userId
          data status now hdb']
      rw [happ] at hsub'
      exact (hstop hsub').elim
  | updateOffline submissionId data status now =>
    by_cases hdb : st.db.dbInit = true
    · have happ : (applyOp (Op.updateOffline submissionId data status now)
          st).db.submissions
          = st.db.submissions.map (fun x =>
              if x.id == submissionId then
                DatabaseService.applySubmissionPatch x
                  (SyncService.localEditPatch data status now) now
              else x) := by
        simp only [applyOp,
          updateSubmissionOffline_spec st submissionId data status now hdb]
      rw [happ] at hsub'
      obtain ⟨x, hx, hgx⟩ := List.mem_map.mp hsub'
      by_cases hcid : x.id = submissionId
      · refine Or.inr ⟨rfl, ?_⟩
        rw [← hgx, if_pos (by simp [hcid])]
        rfl
      · rw [if_neg (by simp [hcid])] at hgx
        exact (hstop (hgx ▸ hx)).elim
    · have hdb' : st.db.dbInit = false := by
        revert hdb
        cases st.db.dbInit <;> simp
      have happ : applyOp (Op.updateOffline submissionId data status now) st
          = st := by
        simp only [applyOp, updateSubmissionOffline_notInit st submissionId
          data status now hdb']
      rw [happ] at hsub'
      exact (hstop hsub').elim
  | sync outs1 outs2 msg now =>
    by_cases hg : (!st.isOnline || st.syncInProgress) = true
    · have happ : applyOp (Op.sync outs1 outs2 msg now) st = st := by
        simp only [applyOp, SyncService.startSync, hg, if_true]
      rw [happ] at hsub'
      exact (hstop hsub').elim
    · have hg2 : (!st.isOnline || st.syncInProgress) = false := by
        revert hg
        cases (!st.isOnline || st.syncInProgress) <;> simp
      by_cases hdb : st.db.dbInit = true
      · obtain ⟨db1, hp, hdb1, hsubs1⟩ :=
          processSyncQueue_preserves st.db outs1 msg now hdb
        obtain ⟨db2, F, hq, hdb2, hsubs2, hF⟩ :=
          syncPendingSubmissions_spec db1 outs2 now hdb1
        have happ : (applyOp (Op.sync outs1 outs2 msg now) st).db = db2 := by
          simp only [applyOp, SyncService.startSync, hg2,
            Bool.false_eq_true, if_false, ite_false,
            DatabaseService.isInitialized, hdb, Bool.not_true, hp, hq]
        have hsubs : (applyOp (Op.sync outs1 outs2 msg now) st).db.submissions
            = st.db.submissions.map F := by
          rw [happ, hsubs2, hsubs1]
        rw [hsubs] at hsub'
        obtain ⟨x, hx, hFx⟩ := List.mem_map.mp hsub'
        rcases hF x with hFid | ⟨⟨i, hi, hipend, hiid⟩, v, t, hv, hFxv⟩
        · rw [hFid] at hFx
          exact (hstop (hFx ▸ hx)).elim
        · rw [hsubs1] at *
          have hsubid : sub'.id = x.id := by
            rw [← hFx, hFxv]
          have hxeq : x = sub := eq_of_mem_of_nodup_ids st.db.submissions hn
            hx hsub (hsubid.symm.trans hid)
          have hieq : i = x := eq_of_mem_of_nodup_ids st.db.submissions hn
            hi hx hiid
          have hstat : sub'.syncStatus = v := by
            rw [← hFx, hFxv]
          refine Or.inl ⟨?_, ?_⟩
          · rw [← hxeq, ← hieq]
            exact hipend
          · rcases hv with h | h
            · exact Or.inl (by rw [hstat, h])
            · exact Or.inr (by rw [hstat, h])
      · have hdb' : st.db.dbInit = false := by
          revert hdb
          cases st.db.dbInit <;> simp
        have happ : applyOp (Op.sync outs1 outs2 msg now) st = st := by
          simp only [applyOp, SyncService.startSync, hg2,
            Bool.false_eq_true, if_false, ite_false,
            DatabaseService.isInitialized, hdb', Bool.not_false, if_true]
        rw [happ] at hsub'
        exact (hstop hsub').elim
  | enqueue ty action entityId payload now =>
    have hpres : (applyOp (Op.enqueue ty action entityId payload now)
        st).db.submissions = st.db.submissions := by
      by_cases hdb : st.db.dbInit = true
      · simp [applyOp, SyncService.addToSyncQueue,
          DatabaseService.addToSyncQueue, hdb]
      · have hdb' : st.db.dbInit = false := by
          revert hdb
          cases st.db.dbInit <;> simp
        simp [applyOp, SyncService.addToSyncQueue,
          DatabaseService.addToSyncQueue, hdb']
    rw [hpres] at hsub'
    exact (hstop hsub').elim
  | clearFailed =>
    by_cases hdb : st.db.dbInit = true
    · obtain ⟨s1, h1, hsub1⟩ := clearFailed_removeAll_preserves
        ((List.insertionSort createdAtAsc
          (st.db.sync_queue.filter (fun e => e.attempts < 3))).filter
            (fun item => 3 ≤ item.attempts)) st.db hdb
      have hclear : SyncService.clearFailedSyncItems st.db = .ok s1 := by
        unfold SyncService.clearFailedSyncItems
          DatabaseService.getPendingSyncItems
        rw [if_neg (by simp [hdb])]
        exact h1
      have hpres : (applyOp Op.clearFailed st).db.submissions
          = st.db.submissions := by
        simp only [applyOp, hclear]
        exact hsub1
      rw [hpres] at hsub'
      exact (hstop hsub').elim
    · have hdb' : st.db.dbInit = false := by
        revert hdb
        cases st.db.dbInit <;> simp
      have hclear : SyncService.clearFailedSyncItems st.db
          = .error DBError.notInitialized := by
        unfold SyncService.clearFailedSyncItems
          DatabaseService.getPendingSyncItems
        rw [if_pos (by simp [hdb'])]
      have hpres : applyOp Op.clearFailed st = st := by
        simp only [applyOp, hclear]
      rw [hpres] at hsub'
      exact (hstop hsub').elim
  | deleteReport id =>
    cases hdel : DatabaseService.deleteReport st.db id with
    | error e =>
      have happ : applyOp (Op.deleteReport id) st = st := by
        simp only [applyOp, hdel]
      rw [happ] at hsub'
      exact (hstop hsub').elim
    | ok db1 =>
      have happ : (applyOp (Op.deleteReport id) st).db = db1 := by
        simp only [applyOp, hdel]
      have hsubset : ∀ x ∈ db1.submissions, x ∈ st.db.submissions := by
        by_cases hd1 : (DatabaseService.ensureInitialized st.db).dbInit = true
        · have hdel2 : DatabaseService.deleteReport st.db id
              = .ok { DatabaseService.ensureInitialized st.db with
                       submissions :=
                         (DatabaseService.ensureInitialized
                           st.db).submissions.filter
                           (fun sub => !(sub.reportId == id)),
                       reports :=
                         (DatabaseService.ensureInitialized
                           st.db).reports.filter
                           (fun r => !(r.id == id)) } := by
            unfold DatabaseService.deleteReport
            rw [if_neg (by simp [hd1])]
          rw [hdel2] at hdel
          obtain h3 := Except.ok.inj hdel
          rw [← h3]
          intro x hx
          have hx' := (List.mem_filter.mp hx).1
          rwa [ensureInitialized_submissions] at hx'
        · have hdel2 : DatabaseService.deleteReport st.db id
              = .error DBError.notInitialized := by
            unfold DatabaseService.deleteReport
            rw [if_pos (by
              revert hd1
              cases (DatabaseService.ensureInitialized st.db).dbInit <;> simp)]
          rw [hdel2] at hdel
          exact absurd hdel (by simp)
      rw [happ] at hsub'
      exact (hstop (hsubset sub' hsub')).elim
  | editReport id p now =>
    cases hupd : DatabaseService.updateReport st.db id p now with
    | error e =>
      have happ : applyOp (Op.editReport id p now) st = st := by
        simp only [applyOp, hupd]
      rw [happ] at hsub'
      exact (hstop hsub').elim
    | ok db1 =>
      have happ : (applyOp (Op.editReport id p now) st).db = db1 := by
        simp only [applyOp, hupd]
      have hpres : db1.submissions = st.db.submissions := by
        by_cases hd1 : (DatabaseService.ensureInitialized st.db).dbInit = true
        · have hupd2 : DatabaseService.updateReport st.db id p now
              = .ok { DatabaseService.ensureInitialized st.db with
                       reports :=
                         (DatabaseService.ensureInitialized
                           st.db).reports.map
                           (fun r => if r.id == id
                             then DatabaseService.applyReportPatch r p now
                             else r) } := by
            unfold DatabaseService.updateReport
            rw [if_neg (by simp [hd1])]
          rw [hupd2] at hupd
          obtain h3 := Except.ok.inj hupd
          rw [← h3]
          exact ensureInitialized_submissions st.db
        · have hupd2 : DatabaseService.updateReport st.db id p now
              = .error DBError.notInitialized := by
            unfold DatabaseService.updateReport
            rw [if_pos (by
              revert hd1
              cases (DatabaseService.ensureInitialized st.db).dbInit <;> simp)]
          rw [hupd2] at hupd
          exact absurd hupd (by simp)
      rw [happ, hpres] at hsub'
      exact (hstop hsub').elim
  | newReport r now =>
    cases hcr : DatabaseService.createReport st.db r now with
    | error e =>
      have happ : applyOp (Op.newReport r now) st = st := by
        simp only [applyOp, hcr]
      rw [happ] at hsub'
      exact (hstop hsub').elim
    | ok r1 =>
      have happ : (applyOp (Op.newReport r now) st).db = r1.2 := by
        simp only [applyOp, hcr]
      have hpres : r1.2.submissions = st.db.submissions := by
        unfold DatabaseService.createReport at hcr
        split at hcr
        · exact absurd hcr (by simp)
        · obtain h3 := Except.ok.inj hcr
          rw [← h3]
      rw [happ, hpres] at hsub'
      exact (hstop hsub').elim
  | newProject p now =>
    cases hcp : DatabaseService.createProject st.db p now with
    | error e =>
      have happ : applyOp (Op.newProject p now) st = st := by
        simp only [applyOp, hcp]
      rw [happ] at hsub'
      exact (hstop hsub').elim
    | ok r1 =>
      have happ : (applyOp (Op.newProject p now) st).db = r1.2 := by
        simp only [applyOp, hcp]
      have hpres : r1.2.submissions = st.db.submissions := by
        unfold DatabaseService.createProject at hcp
        split at hcp
        · exact absurd hcp (by simp)
        · obtain h3 := Except.ok.inj hcp
          rw [← h3]
      rw [happ, hpres] at hsub'
      exact (hstop hsub').elim
  | loginOp c now =>
    cases hl : Auth.login st.db c now with
    | error e =>
      have happ : applyOp (Op.loginOp c now) st = st := by
        simp only [applyOp, hl]
      rw [happ] at hsub'
      exact (hstop hsub').elim
    | ok r =>
      have happ : (applyOp (Op.loginOp c now) st).db = r.2 := by
        simp only [applyOp, hl]
      have hpres : r.2.submissions = st.db.submissions :=
        login_preserves_submissions st.db c now r.1 r.2 (by rw [hl])
      rw [happ, hpres] at hsub'
      exact (hstop hsub').elim
  | registerOp d now =>
    cases hr : Auth.register st.db d now with
    | error e =>
      have happ : applyOp (Op.registerOp d now) st = st := by
        simp only [applyOp, hr]
      rw [happ] at hsub'
      exact (hstop hsub').elim
    | ok r =>
      have happ : (applyOp (Op.registerOp d now) st).db = r.2 := by
        simp only [applyOp, hr]
      have hpres : r.2.submissions = st.db.submissions :=
        register_preserves_submissions st.db d now r.1 r.2 (by rw [hr])
      rw [happ, hpres] at hsub'
      exact (hstop hsub').elim

/-- Witness for C9: a local edit of a synced submission lands in the
local-edit arm of the transition invariant. -/
theorem syncStatus_transition_safety_witness :
    (stateWithSynced.db.submissions.map (fun x => x.id)).Nodup
    ∧ syncedSub ∈ stateWithSynced.db.submissions
    ∧ editedSub ∈ (applyOp
        (Op.updateOffline "s1" [("f1", "new")] none 60)
        stateWithSynced).db.submissions
    ∧ editedSub.id = syncedSub.id
    ∧ editedSub.syncStatus ≠ syncedSub.syncStatus
    ∧ ((syncedSub.syncStatus = SyncStatus.pending
        ∧ (editedSub.syncStatus = SyncStatus.synced
           ∨ editedSub.syncStatus = SyncStatus.error))
       ∨ (Op.isLocalEdit (Op.updateOffline "s1" [("f1", "new")] none 60)
            = true
          ∧ editedSub.syncStatus = SyncStatus.pending)) :=
  ⟨by decide, by decide, by decide, by decide, by decide,
    syncStatus_transition_safety
      (Op.updateOffline "s1" [("f1", "new")] none 60) stateWithSynced
      (by decide) syncedSub (by decide) editedSub (by decide) (by decide)
      (by decide)⟩

end ReportsApp
